import Mathlib

/-!
Shallow embedding of the playback-orchestration core of the playkit-js player
(`src/unnamed/part_001`, the `Player` class) and proofs about its observable
behaviour.  Pure state is modelled by the `Player` structure; every stateful
method becomes a function `Player → Player × List Act`, where the returned
action list is the ordered trace of events dispatched on the event bus and of
calls made to collaborators (engine, poster manager, plugin manager, external
captions handler, state manager) during that call.  Numbers are rationals.
-/

/-- Severity values of PKError.Severity used by the player. -/
inductive Severity
  | recoverable
  | critical
deriving DecidableEq, Repr

/-- Error codes of PKError.Code used by the player core. -/
inductive ErrorCode
  | noEngineFoundToPlayTheSource
  | noSourceProvided
deriving DecidableEq, Repr

/-- Observable actions of one synchronous player call: events dispatched on the
event bus, plus calls made to the engine and the other collaborators, in order. -/
inductive Act
  | changeSourceStarted
  | sourceSelected
  | changeSourceEnded
  | errorEvent (severity : Severity) (code : ErrorCode)
  | playbackStart
  | playerReset
  | playerDestroy
  | firstPlaying
  | muteChange (mute : Bool)
  | textTrackChanged (trackIndex : Nat)
  | middlewareInvoked (kind : String) (pluginName : String)
  | collabReset (collaborator : String)
  | collabDestroy (collaborator : String)
  | posterShow
  | engineReset
  | enginePause
  | engineLoad
  | engineDestroy (engineId : String)
  | engineCreate (engineId : String)
  | engineRestore (engineId : String)
  | engineSelectVideoTrack (trackIndex : Nat)
  | engineSelectAudioTrack (trackIndex : Nat)
  | engineSelectTextTrack (trackIndex : Nat)
  | engineHideTextTrack
  | engineSetCurrentTime (t : ℚ)
  | engineSetVolume (v : ℚ)
  | engineSetMuted (mute : Bool)
  | externalCaptionsSelectTextTrack (trackIndex : Nat)
  | externalCaptionsHideTextTrack
deriving DecidableEq, Repr

/-- Track variants (`VideoTrack`, `AudioTrack`, `TextTrack`); the source
dispatches on the variant with instanceof, the embedding dispatches on this tag. -/
inductive TrackKind
  | video
  | audio
  | text
deriving DecidableEq, Repr

/-- A selectable track: `index` is the engine-assigned position inside its
type-group, `active` the active-track mark, `external` the TextTrack-only
origin flag (false for video/audio). -/
structure Track where
  kind : TrackKind
  index : Nat
  active : Bool
  label : String
  language : String
  external : Bool := false
deriving DecidableEq, Repr

/-- The value of the text-language constant AUTO in the source. -/
def AUTO : String := "auto"

/-- The value of the synthetic off-track language constant OFF in the source. -/
def OFF : String := "off"

/-- The DURATION_OFFSET constant (0.1) subtracted from the duration to obtain
the safe seek bound for non-live content. -/
def DURATION_OFFSET : ℚ := 1 / 10

/-- One entry of the configured stream priority list: an engine id and a
stream format. -/
structure PriorityEntry where
  engine : String
  format : String
deriving DecidableEq, Repr

/-- A media source descriptor inside one stream-format bucket of `sources`. -/
structure Source where
  url : String
deriving DecidableEq, Repr

/-- A registered engine class (an element of `EngineProvider.getEngines()`):
its static id and its `canPlaySource(source, preferNative, drmConfig)` answer. -/
structure EngineStatic where
  id : String
  canPlaySource : Source → Bool → Option String → Bool

/-- The bound engine instance: its id, the source it was created with, and the
engine-owned attributes the player reads and writes through its accessors. -/
structure Engine where
  id : String
  sourceUrl : String
  loadStarted : Bool := false
  currentTime : ℚ := 0
  duration : ℚ := 0
  volume : ℚ := 1
  muted : Bool := false
  paused : Bool := true
  live : Bool := false
deriving DecidableEq, Repr

/-- The engine's `src` accessor: the source url once loading has started,
empty before that. -/
def Engine.src (e : Engine) : Option String :=
  if e.loadStarted then some e.sourceUrl else none

/-- The playback section of the player configuration (the fields the embedded
operations read). -/
structure PlaybackConfig where
  streamPriority : List PriorityEntry := []
  preferNative : List (String × Bool) := []
  autoplay : Bool := false
  preload : String := "none"
  loop : Bool := false
  useNativeTextTrack : Bool := false
  textLanguage : String := AUTO
  audioLanguage : String := ""
  volume : Option ℚ := none
  muted : Option Bool := none
deriving DecidableEq, Repr

/-- The player configuration: per-format source buckets, the playback section
and the DRM section. -/
structure PlayerConfig where
  sources : List (String × List Source) := []
  sourcesType : String := ""
  dvr : Bool := false
  playback : PlaybackConfig := {}
  drm : Option String := none
deriving DecidableEq, Repr

/-- A partial configuration passed to `configure`: only the given sections
overlay the current configuration (deep, additive merge). -/
structure PartialPlaybackConfig where
  streamPriority : Option (List PriorityEntry) := none
  preferNative : Option (List (String × Bool)) := none
  autoplay : Option Bool := none
  preload : Option String := none
  loop : Option Bool := none
  useNativeTextTrack : Option Bool := none
  textLanguage : Option String := none
  audioLanguage : Option String := none
  volume : Option ℚ := none
  muted : Option Bool := none
deriving DecidableEq, Repr

/-- A plugin named in the incoming `plugins` configuration section, together
with whether its loaded plugin instance supplies a playback middleware
(`getMiddlewareImpl` present and returning a middleware). -/
structure PluginStatic where
  name : String
  hasMiddleware : Bool
deriving DecidableEq, Repr

/-- The incoming argument of `configure`. -/
structure PartialConfig where
  sources : Option (List (String × List Source)) := none
  plugins : List PluginStatic := []
  playback : PartialPlaybackConfig := {}
  drm : Option String := none
deriving DecidableEq, Repr

/-- Modelled from the spec: `Utils.Object.mergeDeep` (utils/util.js, not in
src/) applied to the playback section: merges are deep and additive, new
fields overlay existing ones. -/
def mergePlayback (old : PlaybackConfig) (new : PartialPlaybackConfig) : PlaybackConfig where
  streamPriority := new.streamPriority.getD old.streamPriority
  preferNative := new.preferNative.getD old.preferNative
  autoplay := new.autoplay.getD old.autoplay
  preload := new.preload.getD old.preload
  loop := new.loop.getD old.loop
  useNativeTextTrack := new.useNativeTextTrack.getD old.useNativeTextTrack
  textLanguage := new.textLanguage.getD old.textLanguage
  audioLanguage := new.audioLanguage.getD old.audioLanguage
  volume := if new.volume.isSome then new.volume else old.volume
  muted := if new.muted.isSome then new.muted else old.muted

/-- Look up the source bucket of one format inside `sources`
(an absent key behaves as an empty bucket). -/
def lookupSources (sources : List (String × List Source)) (format : String) : List Source :=
  ((sources.find? (fun kv => kv.1 == format)).map (fun kv => kv.2)).getD []

/-- Modelled from the spec: `Utils.Object.mergeDeep` (utils/util.js, not in
src/) applied to the `sources` mapping: buckets of the new configuration
overlay buckets of the old one key by key. -/
def mergeSources (old new : List (String × List Source)) : List (String × List Source) :=
  (old.filter (fun kv => (new.find? (fun kv2 => kv2.1 == kv.1)).isNone)) ++ new

/-- Merge an incoming partial configuration over the current configuration. -/
def mergeConfig (old : PlayerConfig) (new : PartialConfig) : PlayerConfig where
  sources := mergeSources old.sources (new.sources.getD [])
  sourcesType := old.sourcesType
  dvr := old.dvr
  playback := mergePlayback old.playback new.playback
  drm := if new.drm.isSome then new.drm else old.drm

/-- Modelled from the spec: the stream-format identifiers
(`engines/stream-type`, not in src/): the recognized per-format buckets of the
`sources` section. -/
def streamTypes : List String := ["mp4", "dash", "hls", "progressive"]

/-- The `_hasSources` check: some recognized stream type has a nonempty bucket. -/
def hasSources (sources : List (String × List Source)) : Bool :=
  streamTypes.any (fun t => (lookupSources sources t).length > 0)

/-- Whether the incoming configuration carries sources
(`_hasSources(config.sources)` on the raw argument of `configure`). -/
def PartialConfig.carriesSources (cfg : PartialConfig) : Bool :=
  match cfg.sources with
  | some s => hasSources s
  | none => false

/-- State of the single-shot readiness future created by `_createReadyPromise`
before the trailing catch: pending, resolved (first TRACKS_CHANGED), or
rejected (critical error while pending). -/
inductive PromiseState
  | pending
  | resolved
  | rejected
deriving DecidableEq, Repr

/-- The player-level events the readiness future's listeners react to. -/
inductive ReadyEvent
  | tracksChanged
  | error (severity : Severity)
  | other
deriving DecidableEq, Repr

/-- One step of the inner readiness future: while pending, the first
TRACKS_CHANGED resolves it and a critical-severity error rejects it; a settled
future ignores every further signal (a promise settles exactly once). -/
def readyStep (st : PromiseState) (e : ReadyEvent) : PromiseState :=
  match st, e with
  | .pending, .tracksChanged => .resolved
  | .pending, .error s => if s = .critical then .rejected else .pending
  | st, _ => st

/-- Run the inner readiness future from its creation over a sequence of
player-level events. -/
def runReady (events : List ReadyEvent) : PromiseState :=
  events.foldl readyStep .pending

/-- The trailing `.catch(() => ...)` of `_createReadyPromise`: a rejection of
the inner future settles the stored (outer) future successfully, so the
rejection is swallowed. -/
def catchOutcome (st : PromiseState) : PromiseState :=
  match st with
  | .rejected => .resolved
  | st => st

/-- The last externally observed playback attributes, persisted across engine
swaps (`_playbackAttributesState`); absent fields are `undefined` in the
source. -/
structure PlaybackAttributesState where
  muted : Option Bool := none
  volume : Option ℚ := none
  rate : Option ℚ := none
  audioLanguage : Option String := none
  textLanguage : Option String := none
deriving DecidableEq, Repr

/-- The player state: the mutable fields of the `Player` class that the
embedded operations read and write.  `isReset` is `_reset`, `isDestroyed` is
`_destroyed`; `middlewares` is the ordered chain held by `_playbackMiddleware`
(each element the contributing plugin's name); `loadedPlugins` is the plugin
registry of `_pluginManager`; `readyPromise` is the inner state of
`_readyPromise` (`none` after `destroy`). -/
structure Player where
  config : PlayerConfig := {}
  engine : Option Engine := none
  engineType : String := ""
  streamType : String := ""
  tracks : List Track := []
  loading : Bool := false
  loadingMedia : Bool := false
  firstPlay : Bool := true
  firstPlaying : Bool := false
  playbackStart : Bool := false
  playbackEnded : Bool := false
  isReset : Bool := true
  isDestroyed : Bool := false
  fallbackToMutedAutoPlay : Bool := false
  pendingSelectedVideoTrack : Option Track := none
  readyPromise : Option PromiseState := some .pending
  playbackAttributesState : PlaybackAttributesState := {}
  middlewares : List String := []
  loadedPlugins : List String := []
deriving DecidableEq, Repr

/-- The player's `src` accessor: the engine's src when an engine is bound. -/
def Player.src (p : Player) : Option String :=
  p.engine.bind Engine.src

/-- The `ready()` accessor: the current readiness future, or an already
resolved one when none exists; what a caller awaits is the outer future, i.e.
the stored inner state seen through the trailing catch. -/
def Player.ready (p : Player) : PromiseState :=
  match p.readyPromise with
  | some st => catchOutcome st
  | none => .resolved

/-- Feed one player-level event to the current readiness future, when one
exists (the listeners registered by `_createReadyPromise`). -/
def Player.handleReadyEvent (p : Player) (e : ReadyEvent) : Player :=
  { p with readyPromise := p.readyPromise.map (fun st => readyStep st e) }

/-- The `_resetStateFlags` helper. -/
def Player.resetStateFlags (p : Player) : Player :=
  { p with
    loading := false
    firstPlay := true
    loadingMedia := false
    playbackStart := false
    playbackEnded := false
    firstPlaying := false }

/-- The `pause()` method: with an engine bound, thread the pause action through
the middleware chain down to `_pause`, which calls `this._engine.pause()`.
Each synchronous middleware invokes its continuation, so the trace is the chain
in order followed by the engine call (the chain behaviour is modelled from the
spec: PlaybackMiddleware, middleware/playback-middleware.js, is not in src/;
`use` appends to the ordered chain and running an action invokes the chain in
order before the underlying action). -/
def Player.pause (p : Player) : Player × List Act :=
  match p.engine with
  | some eng =>
      ({ p with engine := some { eng with paused := true } },
        p.middlewares.map (fun n => Act.middlewareInvoked "pause" n) ++ [Act.enginePause])
  | none => (p, [])

/-- The `reset()` method: a no-op when already in reset state; otherwise pause,
reset the collaborators (external captions, poster, plugins, state manager),
clear sources/tracks/state flags/engine-type bookkeeping, reset the engine in
place when one is bound, show the black cover, mark reset, dispatch
PLAYER_RESET, remove the internal listeners and create a fresh readiness
future. -/
def Player.reset (p : Player) : Player × List Act :=
  if p.isReset then (p, [])
  else
    let (p1, pauseActs) := p.pause
    let collabActs := [Act.collabReset "externalCaptionsHandler", Act.collabReset "posterManager",
      Act.collabReset "pluginManager", Act.collabReset "stateManager"]
    let p2 := { p1 with config := { p1.config with sources := [] }, tracks := [] }
    let p3 := p2.resetStateFlags
    let p4 := { p3 with engineType := "", streamType := "", pendingSelectedVideoTrack := none }
    let engineActs := if p4.engine.isSome then [Act.engineReset] else []
    let p5 := { p4 with isReset := true }
    let p6 := { p5 with readyPromise := some PromiseState.pending }
    (p6, pauseActs ++ collabActs ++ engineActs ++ [Act.playerReset])

/-- The `destroy()` method: a no-op when already destroyed; otherwise destroy
the collaborators in dependency order, clear configuration, tracks, the
readiness future, the pending video-track selection, the state flags and the
playback attributes, destroy the bound engine (the `_engine` field itself is
not cleared by the source), mark destroyed and dispatch PLAYER_DESTROY. -/
def Player.destroy (p : Player) : Player × List Act :=
  if p.isDestroyed then (p, [])
  else
    let collabActs := [Act.collabDestroy "externalCaptionsHandler", Act.collabDestroy "posterManager",
      Act.collabDestroy "pluginManager", Act.collabDestroy "stateManager",
      Act.collabDestroy "fullscreenController"]
    let p1 := { p with
      config := ({} : PlayerConfig)
      tracks := []
      engineType := ""
      streamType := ""
      readyPromise := none
      pendingSelectedVideoTrack := none }
    let p2 := p1.resetStateFlags
    let p3 := { p2 with playbackAttributesState := {} }
    let engineActs := match p3.engine with
      | some eng => [Act.engineDestroy eng.id]
      | none => []
    let p4 := { p3 with isDestroyed := true }
    (p4, collabActs ++ engineActs ++ [Act.playerDestroy])

/-- Lowercase an ASCII character (the identifiers the player lowercases are
ASCII). -/
def lowerChar (c : Char) : Char :=
  if 65 ≤ c.toNat && c.toNat ≤ 90 then Char.ofNat (c.toNat + 32) else c

/-- An executable model of the String toLowerCase the source applies to
engine ids, formats and language codes. -/
def lowerString (s : String) : String := String.mk (s.data.map lowerChar)

/-- Modelled from the spec: `Track.langComparer` (track/track.js, not in src/),
the "locale match" test of the spec: whether an input language matches a
track's language, modelled as case-insensitive equality of the codes. -/
def langComparer (inputLang trackLang : String) : Bool :=
  lowerString inputLang == lowerString trackLang

/-- The `_getTextTracks` helper (`_getTracksByType` at the text variant). -/
def Player.getTextTracks (p : Player) : List Track :=
  p.tracks.filter (fun t => t.kind == TrackKind.text)

/-- The `_getAudioTracks` helper. -/
def Player.getAudioTracks (p : Player) : List Track :=
  p.tracks.filter (fun t => t.kind == TrackKind.audio)

/-- The `_getVideoTracks` helper. -/
def Player.getVideoTracks (p : Player) : List Track :=
  p.tracks.filter (fun t => t.kind == TrackKind.video)

/-- The `_markActiveTrack` helper: inside the selected track's type-group, a
track is marked active exactly when its index equals the selected track's
index (index-based, not identity-based). -/
def Player.markActiveTrack (p : Player) (track : Track) : Player :=
  { p with tracks := p.tracks.map (fun (t : Track) =>
      if t.kind == track.kind then { t with active := t.index == track.index } else t) }

/-- The public `hideTextTrack()` method: with an engine bound, hide the
engine's text rendering, deactivate every text track, and when the synthetic
OFF track exists activate it and dispatch TEXT_TRACK_CHANGED for it. -/
def Player.hideTextTrack (p : Player) : Player × List Act :=
  match p.engine with
  | some _ =>
      let p1 := { p with tracks := p.tracks.map (fun (t : Track) =>
        if t.kind == TrackKind.text then { t with active := false } else t) }
      match p1.getTextTracks.find? (fun t => t.language == OFF) with
      | some offTrack =>
          let p2 := { p1 with tracks := p1.tracks.map (fun (t : Track) =>
            if t.kind == TrackKind.text && t.index == offTrack.index then { t with active := true } else t) }
          (p2, [Act.engineHideTextTrack, Act.textTrackChanged offTrack.index])
      | none => (p1, [Act.engineHideTextTrack])
  | none => (p, [])

/-- The `selectTrack` method, dispatching on the track variant: a video
selection while `playbackEnded` is stored as pending instead of reaching the
engine; audio goes to the engine immediately; for text, the OFF pseudo-track
hides both rendering paths, an external track routes through the external
captions handler (hiding the engine path), and a non-external track routes
through the engine (hiding the external path). -/
def Player.selectTrack (p : Player) (track : Track) : Player × List Act :=
  match p.engine with
  | none => (p, [])
  | some _ =>
      match track.kind with
      | TrackKind.video =>
          if p.playbackEnded then
            ({ p with pendingSelectedVideoTrack := some track }, [])
          else (p, [Act.engineSelectVideoTrack track.index])
      | TrackKind.audio => (p, [Act.engineSelectAudioTrack track.index])
      | TrackKind.text =>
          if track.language == OFF then
            let (p1, a1) := p.hideTextTrack
            ({ p1 with playbackAttributesState :=
                { p1.playbackAttributesState with textLanguage := some OFF } },
              a1 ++ [Act.externalCaptionsHideTextTrack])
          else if track.external && !p.config.playback.useNativeTextTrack then
            (p, [Act.engineHideTextTrack, Act.externalCaptionsSelectTextTrack track.index])
          else
            (p, [Act.externalCaptionsHideTextTrack, Act.engineSelectTextTrack track.index])

/-- The `_onPlaying` handler: FIRST_PLAYING is dispatched once, and a pending
video-track selection is applied to the engine and then cleared. -/
def Player.onPlaying (p : Player) : Player × List Act :=
  let r :=
    if !p.firstPlaying then ({ p with firstPlaying := true }, [Act.firstPlaying])
    else (p, [])
  match r.1.engine, r.1.pendingSelectedVideoTrack with
  | some _, some t =>
      ({ r.1 with pendingSelectedVideoTrack := none }, r.2 ++ [Act.engineSelectVideoTrack t.index])
  | _, _ => r

/-- The `_getLanguage` helper: the track language to set by default; the
special AUTO value resolves to the locale-matching track's language, else the
given default track's language when it is not OFF, else the first text
track's language.  `Locale.language` (utils/locale.js, not in src/) is taken
as the `locale` parameter. -/
def Player.getLanguage (locale : String) (p : Player) (configuredLanguage : String)
    (defaultTrack : Option Track) : String :=
  if configuredLanguage == AUTO then
    let tracks := p.getTextTracks
    match tracks.find? (fun t => langComparer locale t.language) with
    | some localeTrack => localeTrack.language
    | none =>
        match defaultTrack with
        | some dt =>
            if dt.language != OFF then dt.language
            else
              match tracks.head? with
              | some t => t.language
              | none => configuredLanguage
        | none =>
            match tracks.head? with
            | some t => t.language
            | none => configuredLanguage
  else configuredLanguage

/-- The text language `_setDefaultTracks` resolves for the current session:
the previously observed user-chosen language when one exists, else
`_getLanguage` on the configured language with the currently active text
track as default. -/
def Player.chosenTextLanguage (locale : String) (p : Player) : String :=
  match p.playbackAttributesState.textLanguage with
  | some lang => lang
  | none =>
      p.getLanguage locale p.config.playback.textLanguage
        (p.getTextTracks.find? (fun t => t.active))

/-- The `_setDefaultTrack` helper: select and mark the first track matching
the resolved language; otherwise fall back to selecting the given default
track when it exists and is not already active. -/
def Player.setDefaultTrack (p : Player) (tracks : List Track) (language : String)
    (defaultTrack : Option Track) : Player × List Act :=
  match tracks.find? (fun t => langComparer language t.language) with
  | some track =>
      let r := p.selectTrack track
      (r.1.markActiveTrack track, r.2)
  | none =>
      match defaultTrack with
      | some dt => if !dt.active then p.selectTrack dt else (p, [])
      | none => (p, [])

/-- The `_setDefaultTracks` method run on every tracks-changed resolution:
resolve the text language (user-chosen session language, else configured) and
the audio language, then apply `_setDefaultTrack` to the text group (with the
OFF track as fallback) and to the audio group (with the currently active
audio track as fallback). -/
def Player.setDefaultTracks (locale : String) (p : Player) : Player × List Act :=
  let activeAudio := p.getAudioTracks.find? (fun t => t.active)
  let offTextTrack := p.getTextTracks.find? (fun t => langComparer OFF t.language)
  let textLang := p.chosenTextLanguage locale
  let audioLang := (p.playbackAttributesState.audioLanguage).getD p.config.playback.audioLanguage
  let r1 := p.setDefaultTrack p.getTextTracks textLang offTextTrack
  let r2 := r1.1.setDefaultTrack r1.1.getAudioTracks audioLang activeAudio
  (r2.1, r1.2 ++ r2.2)

/-- The `isLive()` accessor: the configured source type is not vod, and
either the configured source type is live or an engine is bound and reports
live.  The MediaType constants (media-type.js, not in src/) are modelled from
the spec as the vod and live type identifiers. -/
def Player.isLive (p : Player) : Bool :=
  p.config.sourcesType != "vod"
    && (p.config.sourcesType == "live"
        || (match p.engine with
            | some eng => eng.live
            | none => false))

/-- The `Utils.Number.isFloat` test of utils/util.js as it acts on a rational:
a number that is not an integer. -/
def isFloat (q : ℚ) : Bool := q.den != 1

/-- The `currentTime` setter: with an engine bound and a numeric argument
(every rational is numeric), clamp below at 0 and above at the safe duration
(the duration, minus DURATION_OFFSET when not live), then set the engine
time. -/
def Player.setCurrentTime (p : Player) (tm : ℚ) : Player × List Act :=
  match p.engine with
  | none => (p, [])
  | some eng =>
      let bounded1 := if tm < 0 then 0 else tm
      let safeDuration := if p.isLive then eng.duration else eng.duration - DURATION_OFFSET
      let bounded2 := if bounded1 > safeDuration then safeDuration else bounded1
      ({ p with engine := some { eng with currentTime := bounded2 } },
        [Act.engineSetCurrentTime bounded2])

/-- The `volume` setter: with an engine bound, the value is applied only when
it is a float or exactly 0 or 1; an applied value is clamped into the unit
interval and set on the engine.  No error event is ever dispatched. -/
def Player.setVolume (p : Player) (vol : ℚ) : Player × List Act :=
  match p.engine with
  | none => (p, [])
  | some eng =>
      if isFloat vol || vol == 0 || vol == 1 then
        let bounded1 := if vol < 0 then 0 else vol
        let bounded2 := if bounded1 > 1 then 1 else bounded1
        ({ p with engine := some { eng with volume := bounded2 } },
          [Act.engineSetVolume bounded2])
      else (p, [])

/-- The `muted` setter: with an engine bound, set the engine's muted state,
dispatch MUTE_CHANGE, and clear the muted-autoplay fallback flag on unmute. -/
def Player.setMuted (p : Player) (mute : Bool) : Player × List Act :=
  match p.engine with
  | none => (p, [])
  | some eng =>
      let p1 := { p with engine := some { eng with muted := mute } }
      let p2 := if mute == false then { p1 with fallbackToMutedAutoPlay := mute } else p1
      (p2, [Act.engineSetMuted mute, Act.muteChange mute])

/-- Look up the per-format `preferNative` flag (an absent key behaves as the
absent flag, which the engine sees as false). -/
def lookupPreferNative (preferNative : List (String × Bool)) (format : String) : Bool :=
  ((preferNative.find? (fun kv => kv.1 == format)).map (fun kv => kv.2)).getD false

/-- The loop of `_selectEngineByPriority`: walk the stream priority list in
order; for an entry whose engine id is registered and whose format bucket is
nonempty, ask the engine whether it can play the bucket's first source; the
first yes wins and the loop stops.  The second component records, in order,
the (engine, format) entries on which `canPlaySource` was asked. -/
def selectEngineLoop (registry : List EngineStatic) (preferNative : List (String × Bool))
    (sources : List (String × List Source)) (drm : Option String) :
    List PriorityEntry → Option (EngineStatic × Source × String × String) × List (String × String)
  | [] => (none, [])
  | priority :: rest =>
      let engineId := lowerString priority.engine
      let format := lowerString priority.format
      match registry.find? (fun E => E.id == engineId) with
      | some E =>
          match lookupSources sources format with
          | source :: _ =>
              if E.canPlaySource source (lookupPreferNative preferNative format) drm then
                (some (E, source, engineId, format), [(engineId, format)])
              else
                let r := selectEngineLoop registry preferNative sources drm rest
                (r.1, (engineId, format) :: r.2)
          | [] => selectEngineLoop registry preferNative sources drm rest
      | none => selectEngineLoop registry preferNative sources drm rest

/-- The `_loadEngine` method: with no engine bound, create one; with the same
engine type bound, restore the existing instance in place with the new
source; with a different engine type bound, destroy the old engine and then
create the new one. -/
def Player.loadEngine (p : Player) (E : EngineStatic) (source : Source) : Player × List Act :=
  match p.engine with
  | none =>
      ({ p with engine := some { id := E.id, sourceUrl := source.url } }, [Act.engineCreate E.id])
  | some eng =>
      if eng.id == E.id then
        ({ p with engine := some { id := eng.id, sourceUrl := source.url } }, [Act.engineRestore eng.id])
      else
        ({ p with engine := some { id := E.id, sourceUrl := source.url } },
          [Act.engineDestroy eng.id, Act.engineCreate E.id])

/-- The `_selectEngineByPriority` method: run the selection loop on the
current configuration; on success load the winning engine with the winning
source and record the engine and stream types. -/
def Player.selectEngineByPriority (registry : List EngineStatic) (p : Player) :
    Player × Bool × List Act :=
  match (selectEngineLoop registry p.config.playback.preferNative p.config.sources
      p.config.drm p.config.playback.streamPriority).1 with
  | some (E, source, engineId, format) =>
      let r := p.loadEngine E source
      ({ r.1 with engineType := engineId, streamType := format }, true, r.2)
  | none => (p, false, [])

/-- One step of `_configureOrLoadPlugins` over one named plugin: an already
registered plugin only has its configuration updated; a new plugin is loaded
only while no engine exists, and its middleware, when present, is appended to
the batch when the plugin is named bumper and prepended otherwise; with an
engine bound the unloaded plugin's configuration is dropped. -/
def Player.configurePluginsStep (st : Player × List String) (pl : PluginStatic) :
    Player × List String :=
  let q := st.1
  let mids := st.2
  if q.loadedPlugins.contains pl.name then (q, mids)
  else if q.engine.isNone then
    let q1 := { q with loadedPlugins := q.loadedPlugins ++ [pl.name] }
    if pl.hasMiddleware then
      if pl.name == "bumper" then (q1, mids ++ [pl.name]) else (q1, [pl.name] ++ mids)
    else (q1, mids)
  else (q, mids)

/-- The `_configureOrLoadPlugins` method: fold the incoming plugins section in
order, then register the collected middleware batch on the playback
middleware chain in batch order (`use` appends; modelled from the spec, see
`Player.pause`). -/
def Player.configureOrLoadPlugins (p : Player) (plugins : List PluginStatic) : Player :=
  let r := plugins.foldl Player.configurePluginsStep (p, [])
  { r.1 with middlewares := r.1.middlewares ++ r.2 }

/-- The `_load` helper: with an engine bound, no source attached yet and no
load in flight, mark loading and start the engine's asynchronous load (which
attaches the source). -/
def Player.loadInner (p : Player) : Player × List Act :=
  match p.engine with
  | some eng =>
      if p.src.isNone && !p.loading then
        ({ p with loading := true, engine := some { eng with loadStarted := true } },
          [Act.engineLoad])
      else (p, [])
  | none => (p, [])

/-- The public `load()` method: when no source is attached, thread the load
action through the middleware chain down to `_load` (when no engine exists
yet the underlying load is deferred to the SOURCE_SELECTED event); otherwise
the request is ignored. -/
def Player.load (p : Player) : Player × List Act :=
  if p.src.isNone then
    let midActs := p.middlewares.map (fun n => Act.middlewareInvoked "load" n)
    let r :=
      match p.engine with
      | some _ => p.loadInner
      | none => (p, [])
    (r.1, midActs ++ r.2)
  else (p, [])

/-- The `play()` method: on the first play request set `playbackStart`,
dispatch PLAYBACK_START and trigger `load()`; then, with an engine bound (or
media still loading), thread the play action through the middleware chain
(the underlying engine play awaits readiness asynchronously); with no engine
and no pending media load, dispatch the critical NO_SOURCE_PROVIDED error. -/
def Player.play (p : Player) : Player × List Act :=
  let r1 :=
    if !p.playbackStart then
      let q := { p with playbackStart := true }
      let rl := q.load
      (rl.1, Act.playbackStart :: rl.2)
    else (p, [])
  match r1.1.engine with
  | some _ => (r1.1, r1.2 ++ r1.1.middlewares.map (fun n => Act.middlewareInvoked "play" n))
  | none =>
      if r1.1.loadingMedia then
        (r1.1, r1.2 ++ r1.1.middlewares.map (fun n => Act.middlewareInvoked "play" n))
      else
        (r1.1, r1.2 ++ [Act.errorEvent Severity.critical ErrorCode.noSourceProvided])

/-- The muted branch of `_handlePlaybackOptions`: prime muted from the
persisted attribute state when present, else from the playback configuration. -/
def Player.primeMuted (p : Player) : Player × List Act :=
  match p.playbackAttributesState.muted with
  | some m => p.setMuted m
  | none =>
      match p.config.playback.muted with
      | some m => p.setMuted m
      | none => (p, [])

/-- The volume branch of `_handlePlaybackOptions`: prime the volume from the
persisted attribute state when present, else from the playback configuration. -/
def Player.primeVolume (p : Player) : Player × List Act :=
  match p.playbackAttributesState.volume with
  | some v => p.setVolume v
  | none =>
      match p.config.playback.volume with
      | some v => p.setVolume v
      | none => (p, [])

/-- The `_handlePlaybackOptions` helper restricted to the attributes the
embedding tracks: prime muted, then volume. -/
def Player.handlePlaybackOptions (p : Player) : Player × List Act :=
  let r1 := p.primeMuted
  let r2 := r1.1.primeVolume
  (r2.1, r1.2 ++ r2.2)

/-- The `_handlePreload` helper: preload only with preload set to auto and
autoplay off. -/
def Player.handlePreload (p : Player) : Player × List Act :=
  if p.config.playback.preload == "auto" && !p.config.playback.autoplay then p.load
  else (p, [])

/-- The `_handleAutoPlay` helper: with autoplay configured the asynchronous
capability probe is scheduled (its continuation runs outside this synchronous
call); otherwise the poster is shown. -/
def Player.handleAutoPlay (p : Player) : Player × List Act :=
  if p.config.playback.autoplay then (p, [])
  else (p, [Act.posterShow])

/-- The post-selection steps of the change-media path of `configure()`, in
source order: prime the playback options, handle preload, handle autoplay. -/
def Player.postSelect (q : Player) : Player × List Act :=
  let o := q.handlePlaybackOptions
  let pre := o.1.handlePreload
  let auto := pre.1.handleAutoPlay
  (auto.1, o.2 ++ pre.2 ++ auto.2)

/-- The `configure()` method.  With incoming sources: configure/load plugins,
reset, dispatch CHANGE_SOURCE_STARTED, merge the configuration, clear the
reset flag and run engine selection; on success dispatch SOURCE_SELECTED,
prime playback options, handle preload and autoplay and dispatch
CHANGE_SOURCE_ENDED; on failure dispatch the critical
NO_ENGINE_FOUND_TO_PLAY_THE_SOURCE error.  Without incoming sources: merge
the configuration and configure/load plugins. -/
def Player.configure (registry : List EngineStatic) (p : Player) (cfg : PartialConfig) :
    Player × List Act :=
  if cfg.carriesSources then
    let p1 := p.configureOrLoadPlugins cfg.plugins
    let r := p1.reset
    let p3 := { r.1 with config := mergeConfig r.1.config cfg }
    let p4 := { p3 with isReset := false }
    let s := Player.selectEngineByPriority registry p4
    if s.2.1 then
      let t := s.1.postSelect
      (t.1, r.2 ++ [Act.changeSourceStarted] ++ s.2.2 ++ [Act.sourceSelected]
        ++ t.2 ++ [Act.changeSourceEnded])
    else
      (s.1, r.2 ++ [Act.changeSourceStarted]
        ++ [Act.errorEvent Severity.critical ErrorCode.noEngineFoundToPlayTheSource])
  else
    let p1 := { p with config := mergeConfig p.config cfg }
    (p1.configureOrLoadPlugins cfg.plugins, [])

/-- A player as the constructor leaves it before its final `configure` call:
all flags at their initial values and a fresh readiness future. -/
def Player.base : Player := {}

/-- The constructor: initial state followed by `configure` on the given
configuration. -/
def Player.init (registry : List EngineStatic) (cfg : PartialConfig) : Player × List Act :=
  Player.configure registry Player.base cfg

/-- A settled readiness future ignores every further signal. -/
theorem readyStep_settled (st : PromiseState) (e : ReadyEvent) (h : st ≠ PromiseState.pending) :
    readyStep st e = st := by
  cases st with
  | pending => exact absurd rfl h
  | resolved => cases e <;> rfl
  | rejected => cases e <;> rfl

/-- Folding further events over a settled readiness future changes nothing. -/
theorem foldl_readyStep_settled (st : PromiseState) (h : st ≠ PromiseState.pending)
    (events : List ReadyEvent) : events.foldl readyStep st = st := by
  induction events with
  | nil => rfl
  | cons e rest ih => rw [List.foldl_cons, readyStep_settled st e h]; exact ih

/-- Events that are neither TRACKS_CHANGED nor a critical error leave the
readiness future pending. -/
theorem foldl_readyStep_quiet (pre : List ReadyEvent)
    (h : ∀ e ∈ pre, e ≠ ReadyEvent.tracksChanged ∧ e ≠ ReadyEvent.error Severity.critical) :
    pre.foldl readyStep PromiseState.pending = PromiseState.pending := by
  induction pre with
  | nil => rfl
  | cons e rest ih =>
      have he := h e (by simp)
      have hstep : readyStep PromiseState.pending e = PromiseState.pending := by
        cases e with
        | tracksChanged => exact absurd rfl he.1
        | error s =>
            cases s with
            | critical => exact absurd rfl he.2
            | recoverable => rfl
        | other => rfl
      rw [List.foldl_cons, hstep]
      exact ih (fun x hx => h x (by simp [hx]))

/-- C6: `reset()` is idempotent: whatever the player state (in particular
before any engine is bound), the second of two successive `reset()` calls is a
no-op that leaves the state unchanged and performs no collaborator resets and
dispatches no event at all (so in particular no PLAYER_RESET). -/
theorem c6_reset_idempotent (p : Player) :
    ((p.reset).1).reset = ((p.reset).1, []) := by
  unfold Player.reset
  by_cases h : p.isReset
  · simp [h]
  · simp [h]

/-- C10: `destroy()` clears the readiness future, and `ready()` on a player
with no readiness future falls back to an already resolved promise, so
awaiting readiness on a destroyed player completes immediately. -/
theorem c10_ready_after_destroy (p : Player) (h : p.isDestroyed = false) :
    ((p.destroy).1.readyPromise = none)
    ∧ ((p.destroy).1.ready = PromiseState.resolved)
    ∧ (∀ q : Player, q.readyPromise = none → q.ready = PromiseState.resolved) := by
  refine ⟨?_, ?_, ?_⟩
  · unfold Player.destroy
    simp [h, Player.resetStateFlags]
  · unfold Player.destroy Player.ready
    simp [h, Player.resetStateFlags]
  · intro q hq
    unfold Player.ready
    simp [hq]

/-- Witness for C10 at the initial player state. -/
theorem c10_ready_after_destroy_witness :
    Player.base.isDestroyed = false
    ∧ ((Player.base.destroy).1.ready = PromiseState.resolved) :=
  ⟨rfl, (c10_ready_after_destroy Player.base rfl).2.1⟩

/-- C5: `ready()` returns the current readiness future seen through the
rejection-swallowing catch, or an already resolved one when none exists; a
fresh pending future exists at construction and is recreated by every
effective `reset()`; the future resolves on the first TRACKS_CHANGED after
its creation; a critical-severity error observed before that rejects the
inner future but the catch settles the awaited outcome successfully, so a
caller awaiting `ready()` never observes a rejection. -/
theorem c5_ready_gate (pre post : List ReadyEvent)
    (hquiet : ∀ e ∈ pre, e ≠ ReadyEvent.tracksChanged ∧ e ≠ ReadyEvent.error Severity.critical) :
    (∀ p : Player, p.readyPromise = none → p.ready = PromiseState.resolved)
    ∧ (∀ (p : Player) (st : PromiseState), p.readyPromise = some st → p.ready = catchOutcome st)
    ∧ (Player.base.readyPromise = some PromiseState.pending)
    ∧ (∀ p : Player, p.isReset = false → ((p.reset).1).readyPromise = some PromiseState.pending)
    ∧ (∀ p : Player, p.ready ≠ PromiseState.rejected)
    ∧ (runReady (pre ++ ReadyEvent.tracksChanged :: post) = PromiseState.resolved)
    ∧ (runReady (pre ++ ReadyEvent.error Severity.critical :: post) = PromiseState.rejected
        ∧ catchOutcome (runReady (pre ++ ReadyEvent.error Severity.critical :: post))
            = PromiseState.resolved) := by
  have hpre := foldl_readyStep_quiet pre hquiet
  refine ⟨?_, ?_, rfl, ?_, ?_, ?_, ?_⟩
  · intro p hp
    unfold Player.ready
    simp [hp]
  · intro p st hp
    unfold Player.ready
    simp [hp]
  · intro p hp
    unfold Player.reset
    simp [hp]
  · intro p
    unfold Player.ready
    cases hp : p.readyPromise with
    | none => simp
    | some st => cases st <;> simp [catchOutcome]
  · unfold runReady
    rw [List.foldl_append, hpre, List.foldl_cons]
    exact foldl_readyStep_settled _ (by simp [readyStep]) post
  · constructor
    · unfold runReady
      rw [List.foldl_append, hpre, List.foldl_cons]
      exact foldl_readyStep_settled _ (by simp [readyStep]) post
    · unfold runReady
      rw [List.foldl_append, hpre, List.foldl_cons]
      rw [foldl_readyStep_settled _ (by simp [readyStep]) post]
      rfl

/-- Witness for C5 at a concrete event sequence: one unrelated event, then
TRACKS_CHANGED (resp. a critical error), then further signals. -/
theorem c5_ready_gate_witness :
    (∀ e ∈ [ReadyEvent.other],
        e ≠ ReadyEvent.tracksChanged ∧ e ≠ ReadyEvent.error Severity.critical)
    ∧ runReady [ReadyEvent.other, ReadyEvent.tracksChanged, ReadyEvent.error Severity.critical]
        = PromiseState.resolved
    ∧ catchOutcome (runReady [ReadyEvent.other, ReadyEvent.error Severity.critical,
        ReadyEvent.tracksChanged]) = PromiseState.resolved :=
  ⟨by decide,
    (c5_ready_gate [ReadyEvent.other] [ReadyEvent.error Severity.critical] (by decide)).2.2.2.2.2.1,
    (c5_ready_gate [ReadyEvent.other] [ReadyEvent.tracksChanged] (by decide)).2.2.2.2.2.2.2⟩

/-- C4: selecting a video track while `playbackEnded` does not reach the
engine: the call performs no action at all and stores the track as pending;
the next `playing` event applies the pending selection to the engine exactly
once and clears it; a further `playing` event performs nothing. -/
theorem c4_pending_video_selection (p : Player) (track : Track) (e : Engine)
    (hEng : p.engine = some e) (hEnded : p.playbackEnded = true)
    (hKind : track.kind = TrackKind.video) :
    ((p.selectTrack track).2 = []
      ∧ (p.selectTrack track).1.pendingSelectedVideoTrack = some track)
    ∧ (((p.selectTrack track).1.onPlaying).2.count (Act.engineSelectVideoTrack track.index) = 1
      ∧ ((p.selectTrack track).1.onPlaying).1.pendingSelectedVideoTrack = none)
    ∧ ((((p.selectTrack track).1.onPlaying).1.onPlaying).2 = []) := by
  have hsel : p.selectTrack track = ({ p with pendingSelectedVideoTrack := some track }, []) := by
    unfold Player.selectTrack
    rw [hEng, hKind]
    simp [hEnded]
  rw [hsel]
  by_cases hfp : p.firstPlaying
  · have h1 : ({ p with pendingSelectedVideoTrack := some track } : Player).onPlaying
        = ({ p with pendingSelectedVideoTrack := none }, [Act.engineSelectVideoTrack track.index]) := by
      unfold Player.onPlaying
      simp [hfp, hEng]
    rw [h1]
    refine ⟨⟨rfl, rfl⟩, ⟨by simp, rfl⟩, ?_⟩
    unfold Player.onPlaying
    simp [hfp, hEng]
  · have h1 : ({ p with pendingSelectedVideoTrack := some track } : Player).onPlaying
        = ({ p with pendingSelectedVideoTrack := none, firstPlaying := true },
            [Act.firstPlaying, Act.engineSelectVideoTrack track.index]) := by
      unfold Player.onPlaying
      simp [hfp, hEng]
    rw [h1]
    refine ⟨⟨rfl, rfl⟩, ⟨by simp, rfl⟩, ?_⟩
    unfold Player.onPlaying
    simp [hEng]

/-- Witness for C4: a concrete ended player and a concrete video track. -/
theorem c4_pending_video_selection_witness :
    (({ engine := some { id := "html5", sourceUrl := "u" }, playbackEnded := true } : Player).engine
        = some { id := "html5", sourceUrl := "u" })
    ∧ (({ engine := some { id := "html5", sourceUrl := "u" }, playbackEnded := true } : Player).selectTrack
        { kind := TrackKind.video, index := 3, active := false, label := "v", language := "" }).2 = [] :=
  ⟨rfl,
    (c4_pending_video_selection
      { engine := some { id := "html5", sourceUrl := "u" }, playbackEnded := true }
      { kind := TrackKind.video, index := 3, active := false, label := "v", language := "" }
      { id := "html5", sourceUrl := "u" } rfl rfl rfl).1.1⟩

/-- A concrete player with an engine bound, a 100 second duration and volume
one half. -/
def c9Player : Player :=
  { engine := some { id := "html5", sourceUrl := "u", duration := 100, volume := 1/2 } }

/-- C9 counterexample: setting the volume to 2 — a value above 1 — does not
set the engine volume to 1: the integer value fails the float-or-0-or-1 input
test, so the setter leaves the engine volume unchanged at one half and
performs nothing. -/
theorem c9_counterexample :
    ((c9Player.setVolume 2).1.engine.map Engine.volume = some (1/2))
    ∧ (some ((1 : ℚ)/2) ≠ some (1 : ℚ))
    ∧ ((c9Player.setVolume 2).2 = []) := by
  have hcond : (isFloat 2 || (2 : ℚ) == 0 || (2 : ℚ) == 1) = false := by
    have h2 : ((2 : ℚ)).den = 1 := by norm_num
    simp [isFloat, h2]
  have hvol : c9Player.setVolume 2 = (c9Player, []) := by
    unfold Player.setVolume c9Player
    rw [hcond]
    simp
  refine ⟨?_, ?_, ?_⟩
  · rw [hvol]; rfl
  · simp only [ne_eq, Option.some.injEq]
    norm_num
  · rw [hvol]

/-- C9 as amended: with an engine bound, a negative `currentTime` value is
clamped to 0 (whenever the safe duration is nonnegative); a volume value
above 1 is clamped to 1 when it passes the float-or-0-or-1 input test (for
instance any non-integer value); a volume value failing that test (an integer
other than 0 and 1) is silently ignored, leaving the player unchanged; none
of these calls dispatches an error event. -/
theorem c9_amended_clamping (p : Player) (eng : Engine) (t v w : ℚ)
    (hEng : p.engine = some eng) (ht : t < 0)
    (hDur : 0 ≤ (if p.isLive then eng.duration else eng.duration - DURATION_OFFSET))
    (hv : isFloat v = true) (hv1 : 1 < v)
    (hw : isFloat w = false) (hw0 : w ≠ 0) (hw1 : w ≠ 1) :
    ((p.setCurrentTime t).1.engine.map Engine.currentTime = some 0)
    ∧ (∀ s c, Act.errorEvent s c ∉ (p.setCurrentTime t).2)
    ∧ ((p.setVolume v).1.engine.map Engine.volume = some 1)
    ∧ (∀ s c, Act.errorEvent s c ∉ (p.setVolume v).2)
    ∧ ((p.setVolume w).1 = p ∧ (p.setVolume w).2 = []) := by
  have hnotlt : ¬ ((0 : ℚ) > if p.isLive then eng.duration else eng.duration - DURATION_OFFSET) :=
    not_lt.mpr hDur
  have htime : p.setCurrentTime t
      = ({ p with engine := some { eng with currentTime := 0 } }, [Act.engineSetCurrentTime 0]) := by
    unfold Player.setCurrentTime
    rw [hEng]
    simp only [if_pos ht, gt_iff_lt]
    rw [if_neg (by exact_mod_cast hnotlt)]
  have hvnotneg : ¬ (v < 0) := not_lt.mpr (le_of_lt (lt_trans one_pos hv1))
  have hvcond : (isFloat v || v == 0 || v == 1) = true := by simp [hv]
  have hvol : p.setVolume v
      = ({ p with engine := some { eng with volume := 1 } }, [Act.engineSetVolume 1]) := by
    unfold Player.setVolume
    rw [hEng, hvcond]
    simp only [if_true, gt_iff_lt]
    rw [if_neg hvnotneg, if_pos hv1]
  have hwcond : (isFloat w || w == 0 || w == 1) = false := by
    simp [hw, hw0, hw1]
  have hvolw : p.setVolume w = (p, []) := by
    unfold Player.setVolume
    rw [hEng, hwcond]
    simp
  refine ⟨?_, ?_, ?_, ?_, ?_⟩
  · rw [htime]; rfl
  · rw [htime]; intro s c; simp
  · rw [hvol]; rfl
  · rw [hvol]; intro s c; simp
  · rw [hvolw]; exact ⟨rfl, rfl⟩

/-- Witness for C9 as amended at the concrete player, with inputs minus 5,
three halves and 2. -/
theorem c9_amended_clamping_witness :
    (c9Player.engine = some { id := "html5", sourceUrl := "u", duration := 100, volume := 1/2 })
    ∧ ((c9Player.setCurrentTime (-5)).1.engine.map Engine.currentTime = some 0)
    ∧ ((c9Player.setVolume (3/2)).1.engine.map Engine.volume = some 1) :=
  ⟨rfl,
    (c9_amended_clamping c9Player { id := "html5", sourceUrl := "u", duration := 100, volume := 1/2 }
      (-5) (3/2) 2 rfl (by norm_num)
      (by rw [show c9Player.isLive = false from rfl]; norm_num [DURATION_OFFSET])
      (by simp only [isFloat, bne_iff_ne, ne_eq]; norm_num) (by norm_num)
      (by simp only [isFloat, bne_eq_false_iff_eq]; norm_num) (by norm_num) (by norm_num)).1,
    (c9_amended_clamping c9Player { id := "html5", sourceUrl := "u", duration := 100, volume := 1/2 }
      (-5) (3/2) 2 rfl (by norm_num)
      (by rw [show c9Player.isLive = false from rfl]; norm_num [DURATION_OFFSET])
      (by simp only [isFloat, bne_iff_ne, ne_eq]; norm_num) (by norm_num)
      (by simp only [isFloat, bne_eq_false_iff_eq]; norm_num) (by norm_num) (by norm_num)).2.2.1⟩

/-- A destroyed player's `destroy()` is a no-op. -/
theorem destroy_of_destroyed (q : Player) (h : q.isDestroyed = true) :
    q.destroy = (q, []) := by
  unfold Player.destroy
  simp [h]

/-- Every `destroy()` call leaves the destroyed flag set. -/
theorem destroy_sets_destroyed (p : Player) : (p.destroy).1.isDestroyed = true := by
  unfold Player.destroy
  by_cases h : p.isDestroyed
  · simp [h]
  · simp [h, Player.resetStateFlags]

/-- An effective `destroy()` clears the playback-start flag. -/
theorem destroy_clears_playbackStart (p : Player) (h : p.isDestroyed = false) :
    (p.destroy).1.playbackStart = false := by
  unfold Player.destroy
  simp [h, Player.resetStateFlags]

/-- When the playback-start flag is clear, `play()` dispatches PLAYBACK_START. -/
theorem play_emits_playback_start (q : Player) (hq : q.playbackStart = false) :
    Act.playbackStart ∈ (q.play).2 := by
  unfold Player.play
  simp only [hq, Bool.not_false, if_true]
  split
  · simp
  · split <;> simp

/-- A concrete configured player: an engine bound during a previous
`configure` call with a source selected. -/
def c7Player : Player :=
  { engine := some { id := "html5", sourceUrl := "a.m3u8" }, engineType := "html5",
    streamType := "hls", isReset := false }

/-- C7 counterexample: after `destroy()` has completed, `play()` is not a safe
no-op — it performs actions and re-dispatches the PLAYBACK_START lifecycle
event, because only `destroy()` itself checks the destroyed flag. -/
theorem c7_counterexample :
    ((c7Player.destroy).1.isDestroyed = true)
    ∧ (Act.playbackStart ∈ ((c7Player.destroy).1.play).2)
    ∧ (((c7Player.destroy).1.play).2 ≠ []) := by
  refine ⟨rfl, by decide, by decide⟩

/-- C7 as amended: after `destroy()`, a second `destroy()` is a safe no-op
that changes nothing and re-emits no event (in particular no PLAYER_DESTROY);
but the other public calls are not guarded: `play()` on the destroyed player
dispatches PLAYBACK_START again (destroy resets the playback-start flag and
does not clear the engine binding). -/
theorem c7_amended_destroy_only_guard (p : Player) (h : p.isDestroyed = false) :
    (((p.destroy).1).destroy = ((p.destroy).1, []))
    ∧ (Act.playbackStart ∈ (((p.destroy).1).play).2) :=
  ⟨destroy_of_destroyed _ (destroy_sets_destroyed p),
    play_emits_playback_start _ (destroy_clears_playbackStart p h)⟩

/-- Witness for C7 as amended at the concrete configured player. -/
theorem c7_amended_destroy_only_guard_witness :
    (c7Player.isDestroyed = false)
    ∧ (((c7Player.destroy).1).destroy = ((c7Player.destroy).1, [])) :=
  ⟨rfl, (c7_amended_destroy_only_guard c7Player rfl).1⟩

/-- One plugin-configure step only ever changes the plugin registry of the
player component of the accumulator. -/
theorem configurePluginsStep_shape (st : Player × List String) (pl : PluginStatic) :
    ∃ lp, (Player.configurePluginsStep st pl).1 = { st.1 with loadedPlugins := lp } := by
  obtain ⟨q, mids⟩ := st
  unfold Player.configurePluginsStep
  dsimp only
  by_cases h1 : q.loadedPlugins.contains pl.name = true
  · rw [if_pos h1]
    exact ⟨q.loadedPlugins, rfl⟩
  · rw [if_neg h1]
    by_cases h2 : q.engine.isNone = true
    · rw [if_pos h2]
      by_cases h3 : pl.hasMiddleware = true
      · rw [if_pos h3]
        by_cases h4 : (pl.name == "bumper") = true
        · rw [if_pos h4]
          exact ⟨q.loadedPlugins ++ [pl.name], rfl⟩
        · rw [if_neg h4]
          exact ⟨q.loadedPlugins ++ [pl.name], rfl⟩
      · rw [if_neg h3]
        exact ⟨q.loadedPlugins ++ [pl.name], rfl⟩
    · rw [if_neg h2]
      exact ⟨q.loadedPlugins, rfl⟩

/-- Folding plugin-configure steps only ever changes the plugin registry of
the player component of the accumulator. -/
theorem configurePlugins_foldl_shape (batch : List PluginStatic) :
    ∀ st : Player × List String,
      ∃ lp, (batch.foldl Player.configurePluginsStep st).1 = { st.1 with loadedPlugins := lp } := by
  induction batch with
  | nil => intro st; exact ⟨st.1.loadedPlugins, rfl⟩
  | cons pl rest ih =>
      intro st
      obtain ⟨lp1, h1⟩ := configurePluginsStep_shape st pl
      obtain ⟨lp2, h2⟩ := ih (Player.configurePluginsStep st pl)
      rw [List.foldl_cons, h2, h1]
      exact ⟨lp2, rfl⟩

/-- `_configureOrLoadPlugins` leaves the engine binding unchanged. -/
theorem configureOrLoadPlugins_engine (p : Player) (plugins : List PluginStatic) :
    (p.configureOrLoadPlugins plugins).engine = p.engine := by
  unfold Player.configureOrLoadPlugins
  obtain ⟨lp, h⟩ := configurePlugins_foldl_shape plugins (p, [])
  dsimp only
  rw [h]

/-- `_configureOrLoadPlugins` leaves the configuration unchanged. -/
theorem configureOrLoadPlugins_config (p : Player) (plugins : List PluginStatic) :
    (p.configureOrLoadPlugins plugins).config = p.config := by
  unfold Player.configureOrLoadPlugins
  obtain ⟨lp, h⟩ := configurePlugins_foldl_shape plugins (p, [])
  dsimp only
  rw [h]

/-- `_configureOrLoadPlugins` leaves the reset flag unchanged. -/
theorem configureOrLoadPlugins_isReset (p : Player) (plugins : List PluginStatic) :
    (p.configureOrLoadPlugins plugins).isReset = p.isReset := by
  unfold Player.configureOrLoadPlugins
  obtain ⟨lp, h⟩ := configurePlugins_foldl_shape plugins (p, [])
  dsimp only
  rw [h]

/-- Inside one plugin batch over a player with no engine and only fresh,
distinctly named plugins, the collected middleware batch is: the non-bumper
middleware contributors in reverse registration order, then the previously
collected names, then the bumper contributors in registration order. -/
theorem configurePlugins_fold_order (batch : List PluginStatic) :
    ∀ (q : Player) (mids : List String), q.engine = none →
      (∀ pl ∈ batch, pl.name ∉ q.loadedPlugins) →
      (batch.map (fun pl => pl.name)).Nodup →
      (batch.foldl Player.configurePluginsStep (q, mids)).2
        = (((batch.filter (fun pl => pl.hasMiddleware && pl.name != "bumper")).map
              (fun pl => pl.name)).reverse)
            ++ mids
            ++ ((batch.filter (fun pl => pl.hasMiddleware && pl.name == "bumper")).map
              (fun pl => pl.name)) := by
  induction batch with
  | nil => intro q mids _ _ _; simp
  | cons pl rest ih =>
      intro q mids hEng hFresh hNodup
      have hc : q.loadedPlugins.contains pl.name = false := by
        simpa using hFresh pl (by simp)
      have hEngNone : q.engine.isNone = true := by simp [hEng]
      have hstep : Player.configurePluginsStep (q, mids) pl
          = ({ q with loadedPlugins := q.loadedPlugins ++ [pl.name] },
              if pl.hasMiddleware then
                (if pl.name == "bumper" then mids ++ [pl.name] else [pl.name] ++ mids)
              else mids) := by
        unfold Player.configurePluginsStep
        dsimp only
        rw [hc, if_neg (by simp), if_pos hEngNone]
        by_cases h3 : pl.hasMiddleware = true
        · rw [if_pos h3, if_pos h3]
          by_cases h4 : (pl.name == "bumper") = true
          · rw [if_pos h4, if_pos h4]
          · rw [if_neg h4, if_neg h4]
        · rw [if_neg h3, if_neg h3]
      have hFresh2 : ∀ x ∈ rest,
          x.name ∉ ({ q with loadedPlugins := q.loadedPlugins ++ [pl.name] } : Player).loadedPlugins := by
        intro x hx
        simp only [List.mem_append, List.mem_singleton]
        rintro (hmem | hname)
        · exact hFresh x (by simp [hx]) hmem
        · have hnotin : pl.name ∉ rest.map (fun pl2 => pl2.name) := by
            have h5 := hNodup
            simp only [List.map_cons, List.nodup_cons] at h5
            exact h5.1
          exact hnotin (hname ▸ List.mem_map_of_mem (fun pl2 => pl2.name) hx)
      have hNodup2 : (rest.map (fun pl2 => pl2.name)).Nodup := by
        have h5 := hNodup
        simp only [List.map_cons, List.nodup_cons] at h5
        exact h5.2
      rw [List.foldl_cons, hstep]
      rw [ih _ _ (by simp [hEng]) hFresh2 hNodup2]
      by_cases hm : pl.hasMiddleware = true
      · by_cases hb : pl.name = "bumper"
        · have hbeq : (pl.name == "bumper") = true := by simp [hb]
          simp [List.filter_cons, hm, hbeq, hb]
        · have hbne : (pl.name == "bumper") = false := by simp [hb]
          simp [List.filter_cons, hm, hbne, hb]
      · have hmf : pl.hasMiddleware = false := by simpa using hm
        simp [List.filter_cons, hmf]

/-- First plugin of the middleware-ordering scenario. -/
def c2PluginA : PluginStatic := { name := "pluginA", hasMiddleware := true }

/-- Second plugin of the middleware-ordering scenario. -/
def c2PluginB : PluginStatic := { name := "pluginB", hasMiddleware := true }

/-- The bumper plugin of the middleware-ordering scenario. -/
def c2Bumper : PluginStatic := { name := "bumper", hasMiddleware := true }

/-- The scenario batch: register A, then B, then bumper. -/
def c2Batch : List PluginStatic := [c2PluginA, c2PluginB, c2Bumper]

/-- The scenario player after registering the batch, with an engine bound and
its source attached (as after a later configure-and-load). -/
def c2Player : Player :=
  { Player.base.configureOrLoadPlugins c2Batch with
      engine := some { id := "html5", sourceUrl := "u", loadStarted := true } }

/-- C2 counterexample: registering plugins A, B, then bumper in one batch
yields the middleware chain B, A, bumper — not the claimed FIFO order A, B,
bumper — because non-bumper middlewares are prepended to the batch; `play()`
then invokes the play middlewares in exactly that order. -/
theorem c2_counterexample :
    ((Player.base.configureOrLoadPlugins c2Batch).middlewares
        = ["pluginB", "pluginA", "bumper"])
    ∧ ((Player.base.configureOrLoadPlugins c2Batch).middlewares
        ≠ ["pluginA", "pluginB", "bumper"])
    ∧ ((c2Player.play).2.filter (fun a => match a with
          | Act.middlewareInvoked k _ => k == "play"
          | _ => false)
        = [Act.middlewareInvoked "play" "pluginB", Act.middlewareInvoked "play" "pluginA",
            Act.middlewareInvoked "play" "bumper"]) := by
  refine ⟨rfl, by decide, rfl⟩

/-- C2 as amended: within one registration batch (fresh plugins, no engine
yet), the bumper middleware is always placed last regardless of its position
in the batch, and the other middlewares are inserted in reverse registration
order; so registering A, B, then bumper in one batch yields invocation order
B, A, bumper.  FIFO survives only across separate batches. -/
theorem c2_amended_middleware_order (p : Player) (batch : List PluginStatic)
    (hEng : p.engine = none)
    (hFresh : ∀ pl ∈ batch, pl.name ∉ p.loadedPlugins)
    (hNodup : (batch.map (fun pl => pl.name)).Nodup) :
    (p.configureOrLoadPlugins batch).middlewares
      = p.middlewares
          ++ ((((batch.filter (fun pl => pl.hasMiddleware && pl.name != "bumper")).map
                (fun pl => pl.name)).reverse)
            ++ ((batch.filter (fun pl => pl.hasMiddleware && pl.name == "bumper")).map
                (fun pl => pl.name))) := by
  unfold Player.configureOrLoadPlugins
  obtain ⟨lp, h⟩ := configurePlugins_foldl_shape batch (p, [])
  have hmid : (batch.foldl Player.configurePluginsStep (p, [])).1.middlewares
      = p.middlewares := by rw [h]
  dsimp only
  rw [hmid, configurePlugins_fold_order batch p [] hEng hFresh hNodup]
  simp

/-- Witness for C2 as amended at the scenario batch: the amended order is
B, A, bumper. -/
theorem c2_amended_middleware_order_witness :
    (Player.base.engine = none)
    ∧ (∀ pl ∈ c2Batch, pl.name ∉ Player.base.loadedPlugins)
    ∧ ((c2Batch.map (fun pl => pl.name)).Nodup)
    ∧ ((Player.base.configureOrLoadPlugins c2Batch).middlewares
        = ["pluginB", "pluginA", "bumper"]) :=
  ⟨rfl, by decide, by decide, by
    rw [c2_amended_middleware_order Player.base c2Batch rfl (by decide) (by decide)]
    rfl⟩

/-- The claim's auto-resolution, stated from the spec's words: the
locale-matching track's language, else the previously-active default track's
language when it is not OFF, else the first available track's language. -/
def specAutoResolution (locale : String) (tracks : List Track) (prevActive : Option Track) :
    Option String :=
  match tracks.find? (fun t => langComparer locale t.language) with
  | some t => some t.language
  | none =>
      match prevActive with
      | some d =>
          if d.language = OFF then tracks.head?.map (fun t => t.language)
          else some d.language
      | none => tracks.head?.map (fun t => t.language)

/-- The claim's language preference order, stated from the spec's words: the
user-chosen session language if any, else the configured language, where the
AUTO value resolves through `specAutoResolution`. -/
def specPreferredTextLanguage (locale : String) (userLang : Option String) (configured : String)
    (tracks : List Track) (prevActive : Option Track) : String :=
  match userLang with
  | some l => l
  | none =>
      if configured = AUTO then (specAutoResolution locale tracks prevActive).getD configured
      else configured

/-- English text track of the default-resolution scenario, initially active. -/
def c3TrackEn : Track :=
  { kind := TrackKind.text, index := 0, active := true, label := "English", language := "en" }

/-- French text track of the default-resolution scenario. -/
def c3TrackFr : Track :=
  { kind := TrackKind.text, index := 1, active := false, label := "French", language := "fr" }

/-- Synthetic OFF text track of the default-resolution scenario. -/
def c3TrackOff : Track :=
  { kind := TrackKind.text, index := 2, active := false, label := "Off", language := OFF }

/-- The scenario player: engine bound, tracks en (active), fr, OFF, no
previously observed user language and no explicitly configured text language
(the spec-modelled default resolves as AUTO). -/
def c3Player : Player :=
  { engine := some { id := "html5", sourceUrl := "u" },
    tracks := [c3TrackEn, c3TrackFr, c3TrackOff] }

/-- C3: the text language chosen by the default-track resolution follows the
spec's preference order (user-chosen session language, else configured
language, with AUTO resolving to locale match, else previously-active non-OFF
default, else first track); and on the concrete scenario — tracks en(active),
fr, OFF, locale fr, no user or configured language — the resolution marks fr
active and en and OFF inactive. -/
theorem c3_default_text_resolution :
    (∀ (locale : String) (p : Player),
        p.chosenTextLanguage locale
          = specPreferredTextLanguage locale p.playbackAttributesState.textLanguage
              p.config.playback.textLanguage p.getTextTracks
              (p.getTextTracks.find? (fun t => t.active)))
    ∧ ((c3Player.setDefaultTracks "fr").1.getTextTracks.map (fun t => (t.language, t.active))
        = [("en", false), ("fr", true), (OFF, false)]) := by
  constructor
  · intro locale p
    unfold Player.chosenTextLanguage specPreferredTextLanguage Player.getLanguage specAutoResolution
    cases p.playbackAttributesState.textLanguage with
    | some l => rfl
    | none =>
        dsimp only
        by_cases hA : p.config.playback.textLanguage = AUTO
        · have hAb : (p.config.playback.textLanguage == AUTO) = true := by simp [hA]
          simp only [hAb, eq_self_iff_true, if_true, if_pos hA]
          cases hfind : p.getTextTracks.find? (fun t => langComparer locale t.language) with
          | some t => rfl
          | none =>
              cases hdt : p.getTextTracks.find? (fun t => t.active) with
              | some d =>
                  by_cases hoff : d.language = OFF
                  · have hoffb : (d.language != OFF) = false := by simp [hoff]
                    simp only [hoffb, Bool.false_eq_true, if_false, if_pos hoff]
                    cases hhd : p.getTextTracks.head? with
                    | some t => rfl
                    | none => rfl
                  · have hoffb : (d.language != OFF) = true := by simp [hoff]
                    simp only [hoffb, eq_self_iff_true, if_true, if_neg hoff]
                    rfl
              | none =>
                  cases hhd : p.getTextTracks.head? with
                  | some t => rfl
                  | none => rfl
        · have hAb : (p.config.playback.textLanguage == AUTO) = false := by simp [hA]
          simp only [hAb, Bool.false_eq_true, if_false, if_neg hA]
  · rfl

/-- Whether an action is an engine lifecycle action (destroy, create or
restore of an engine instance). -/
def isEngineLifecycleAct (a : Act) : Bool :=
  match a with
  | Act.engineDestroy _ => true
  | Act.engineCreate _ => true
  | Act.engineRestore _ => true
  | _ => false

/-- Every action of a `pause()` trace is a pause middleware invocation or the
engine pause call. -/
theorem pause_trace_forms (q : Player) (a : Act) (h : a ∈ (q.pause).2) :
    (∃ n, a = Act.middlewareInvoked "pause" n) ∨ a = Act.enginePause := by
  unfold Player.pause at h
  cases hE : q.engine with
  | none => rw [hE] at h; simp at h
  | some eng =>
      rw [hE] at h
      simp only [List.mem_append, List.mem_map, List.mem_singleton] at h
      rcases h with ⟨n, _, rfl⟩ | rfl
      · exact Or.inl ⟨n, rfl⟩
      · exact Or.inr rfl

/-- Every action of a `reset()` trace is a pause-trace action, a collaborator
reset, the engine reset or the PLAYER_RESET event. -/
theorem reset_trace_forms (q : Player) (a : Act) (h : a ∈ (q.reset).2) :
    (∃ n, a = Act.middlewareInvoked "pause" n) ∨ a = Act.enginePause
    ∨ (∃ s2, a = Act.collabReset s2) ∨ a = Act.engineReset ∨ a = Act.playerReset := by
  unfold Player.reset at h
  by_cases hr : q.isReset
  · simp [hr] at h
  · simp only [hr, Bool.false_eq_true, if_false] at h
    simp only [List.mem_append] at h
    rcases h with ((hp | hc) | hengine) | hlast
    · rcases pause_trace_forms q a hp with hm | hm
      · exact Or.inl hm
      · exact Or.inr (Or.inl hm)
    · simp only [List.mem_cons, List.not_mem_nil, or_false] at hc
      rcases hc with rfl | rfl | rfl | rfl <;>
        exact Or.inr (Or.inr (Or.inl ⟨_, rfl⟩))
    · split at hengine
      · simp only [List.mem_singleton] at hengine
        subst hengine
        exact Or.inr (Or.inr (Or.inr (Or.inl rfl)))
      · simp at hengine
    · simp only [List.mem_singleton] at hlast
      subst hlast
      exact Or.inr (Or.inr (Or.inr (Or.inr rfl)))

/-- The `reset()` trace contains no engine lifecycle action. -/
theorem reset_no_lifecycle (q : Player) (a : Act) (h : a ∈ (q.reset).2) :
    isEngineLifecycleAct a = false := by
  rcases reset_trace_forms q a h with ⟨n, rfl⟩ | rfl | ⟨s2, rfl⟩ | rfl | rfl <;> rfl

/-- The `reset()` trace contains no error event. -/
theorem reset_no_error (q : Player) (s : Severity) (c : ErrorCode) :
    Act.errorEvent s c ∉ (q.reset).2 := by
  intro h
  rcases reset_trace_forms q (Act.errorEvent s c) h with ⟨n, hn⟩ | hn | ⟨s2, hn⟩ | hn | hn <;>
    exact absurd hn (by simp)

/-- The `muted` setter keeps the engine type. -/
theorem setMuted_engineType (q : Player) (m : Bool) :
    (q.setMuted m).1.engineType = q.engineType := by
  unfold Player.setMuted
  cases hE : q.engine with
  | none => rfl
  | some eng =>
      dsimp only
      split <;> rfl

/-- The `muted` setter keeps the stream type. -/
theorem setMuted_streamType (q : Player) (m : Bool) :
    (q.setMuted m).1.streamType = q.streamType := by
  unfold Player.setMuted
  cases hE : q.engine with
  | none => rfl
  | some eng =>
      dsimp only
      split <;> rfl

/-- The `volume` setter keeps the engine type. -/
theorem setVolume_engineType (q : Player) (v : ℚ) :
    (q.setVolume v).1.engineType = q.engineType := by
  unfold Player.setVolume
  cases hE : q.engine with
  | none => rfl
  | some eng =>
      dsimp only
      split <;> rfl

/-- The `volume` setter keeps the stream type. -/
theorem setVolume_streamType (q : Player) (v : ℚ) :
    (q.setVolume v).1.streamType = q.streamType := by
  unfold Player.setVolume
  cases hE : q.engine with
  | none => rfl
  | some eng =>
      dsimp only
      split <;> rfl

/-- Muted priming keeps the engine type. -/
theorem primeMuted_engineType (q : Player) :
    (q.primeMuted).1.engineType = q.engineType := by
  unfold Player.primeMuted
  cases q.playbackAttributesState.muted with
  | some m => exact setMuted_engineType q m
  | none =>
      cases q.config.playback.muted with
      | some m => exact setMuted_engineType q m
      | none => rfl

/-- Muted priming keeps the stream type. -/
theorem primeMuted_streamType (q : Player) :
    (q.primeMuted).1.streamType = q.streamType := by
  unfold Player.primeMuted
  cases q.playbackAttributesState.muted with
  | some m => exact setMuted_streamType q m
  | none =>
      cases q.config.playback.muted with
      | some m => exact setMuted_streamType q m
      | none => rfl

/-- Volume priming keeps the engine type. -/
theorem primeVolume_engineType (q : Player) :
    (q.primeVolume).1.engineType = q.engineType := by
  unfold Player.primeVolume
  cases q.playbackAttributesState.volume with
  | some v => exact setVolume_engineType q v
  | none =>
      cases q.config.playback.volume with
      | some v => exact setVolume_engineType q v
      | none => rfl

/-- Volume priming keeps the stream type. -/
theorem primeVolume_streamType (q : Player) :
    (q.primeVolume).1.streamType = q.streamType := by
  unfold Player.primeVolume
  cases q.playbackAttributesState.volume with
  | some v => exact setVolume_streamType q v
  | none =>
      cases q.config.playback.volume with
      | some v => exact setVolume_streamType q v
      | none => rfl

/-- Playback-options priming keeps the engine type. -/
theorem handlePlaybackOptions_engineType (q : Player) :
    (q.handlePlaybackOptions).1.engineType = q.engineType := by
  unfold Player.handlePlaybackOptions
  dsimp only
  rw [primeVolume_engineType, primeMuted_engineType]

/-- Playback-options priming keeps the stream type. -/
theorem handlePlaybackOptions_streamType (q : Player) :
    (q.handlePlaybackOptions).1.streamType = q.streamType := by
  unfold Player.handlePlaybackOptions
  dsimp only
  rw [primeVolume_streamType, primeMuted_streamType]

/-- The `_load` helper keeps the engine type. -/
theorem loadInner_engineType (q : Player) :
    (q.loadInner).1.engineType = q.engineType := by
  unfold Player.loadInner
  cases hE : q.engine with
  | none => rfl
  | some eng =>
      dsimp only
      split <;> rfl

/-- The `_load` helper keeps the stream type. -/
theorem loadInner_streamType (q : Player) :
    (q.loadInner).1.streamType = q.streamType := by
  unfold Player.loadInner
  cases hE : q.engine with
  | none => rfl
  | some eng =>
      dsimp only
      split <;> rfl

/-- The public `load()` keeps the engine type. -/
theorem load_engineType (q : Player) :
    (q.load).1.engineType = q.engineType := by
  unfold Player.load
  dsimp only
  split
  · cases hE : q.engine with
    | none => rfl
    | some eng => exact loadInner_engineType q
  · rfl

/-- The public `load()` keeps the stream type. -/
theorem load_streamType (q : Player) :
    (q.load).1.streamType = q.streamType := by
  unfold Player.load
  dsimp only
  split
  · cases hE : q.engine with
    | none => rfl
    | some eng => exact loadInner_streamType q
  · rfl

/-- Preload handling keeps the engine type. -/
theorem handlePreload_engineType (q : Player) :
    (q.handlePreload).1.engineType = q.engineType := by
  unfold Player.handlePreload
  split
  · exact load_engineType q
  · rfl

/-- Preload handling keeps the stream type. -/
theorem handlePreload_streamType (q : Player) :
    (q.handlePreload).1.streamType = q.streamType := by
  unfold Player.handlePreload
  split
  · exact load_streamType q
  · rfl

/-- Autoplay handling does not change the player state. -/
theorem handleAutoPlay_fst (q : Player) : (q.handleAutoPlay).1 = q := by
  unfold Player.handleAutoPlay
  split <;> rfl

/-- The `muted` setter trace contains no engine lifecycle action. -/
theorem setMuted_no_lifecycle (q : Player) (m : Bool) (a : Act) (h : a ∈ (q.setMuted m).2) :
    isEngineLifecycleAct a = false := by
  unfold Player.setMuted at h
  cases hE : q.engine with
  | none => rw [hE] at h; simp at h
  | some eng =>
      rw [hE] at h
      dsimp only at h
      simp only [List.mem_cons, List.not_mem_nil, or_false] at h
      rcases h with rfl | rfl <;> rfl

/-- The `volume` setter trace contains no engine lifecycle action. -/
theorem setVolume_no_lifecycle (q : Player) (v : ℚ) (a : Act) (h : a ∈ (q.setVolume v).2) :
    isEngineLifecycleAct a = false := by
  unfold Player.setVolume at h
  cases hE : q.engine with
  | none => rw [hE] at h; simp at h
  | some eng =>
      rw [hE] at h
      dsimp only at h
      split at h
      · simp only [List.mem_singleton] at h
        subst h; rfl
      · simp at h

/-- The muted priming trace contains no engine lifecycle action. -/
theorem primeMuted_no_lifecycle (q : Player) (a : Act) (h : a ∈ (q.primeMuted).2) :
    isEngineLifecycleAct a = false := by
  unfold Player.primeMuted at h
  cases hM : q.playbackAttributesState.muted with
  | some m => rw [hM] at h; exact setMuted_no_lifecycle q m a h
  | none =>
      rw [hM] at h
      cases hC : q.config.playback.muted with
      | some m => rw [hC] at h; exact setMuted_no_lifecycle q m a h
      | none => rw [hC] at h; simp at h

/-- The volume priming trace contains no engine lifecycle action. -/
theorem primeVolume_no_lifecycle (q : Player) (a : Act) (h : a ∈ (q.primeVolume).2) :
    isEngineLifecycleAct a = false := by
  unfold Player.primeVolume at h
  cases hM : q.playbackAttributesState.volume with
  | some v => rw [hM] at h; exact setVolume_no_lifecycle q v a h
  | none =>
      rw [hM] at h
      cases hC : q.config.playback.volume with
      | some v => rw [hC] at h; exact setVolume_no_lifecycle q v a h
      | none => rw [hC] at h; simp at h

/-- The playback-options priming trace contains no engine lifecycle action. -/
theorem handlePlaybackOptions_no_lifecycle (q : Player) (a : Act)
    (h : a ∈ (q.handlePlaybackOptions).2) : isEngineLifecycleAct a = false := by
  unfold Player.handlePlaybackOptions at h
  dsimp only at h
  rw [List.mem_append] at h
  rcases h with h | h
  · exact primeMuted_no_lifecycle q a h
  · exact primeVolume_no_lifecycle _ a h

/-- The `_load` trace contains no engine lifecycle action. -/
theorem loadInner_no_lifecycle (q : Player) (a : Act) (h : a ∈ (q.loadInner).2) :
    isEngineLifecycleAct a = false := by
  unfold Player.loadInner at h
  cases hE : q.engine with
  | none => rw [hE] at h; simp at h
  | some eng =>
      rw [hE] at h
      dsimp only at h
      split at h
      · simp only [List.mem_singleton] at h
        subst h; rfl
      · simp at h

/-- The public `load()` trace contains no engine lifecycle action. -/
theorem load_no_lifecycle (q : Player) (a : Act) (h : a ∈ (q.load).2) :
    isEngineLifecycleAct a = false := by
  unfold Player.load at h
  dsimp only at h
  split at h
  · rw [List.mem_append] at h
    rcases h with h | h
    · simp only [List.mem_map] at h
      obtain ⟨n, _, rfl⟩ := h
      rfl
    · cases hE : q.engine with
      | none => rw [hE] at h; simp at h
      | some eng => rw [hE] at h; exact loadInner_no_lifecycle q a h
  · simp at h

/-- The preload handling trace contains no engine lifecycle action. -/
theorem handlePreload_no_lifecycle (q : Player) (a : Act) (h : a ∈ (q.handlePreload).2) :
    isEngineLifecycleAct a = false := by
  unfold Player.handlePreload at h
  split at h
  · exact load_no_lifecycle q a h
  · simp at h

/-- The autoplay handling trace contains no engine lifecycle action. -/
theorem handleAutoPlay_no_lifecycle (q : Player) (a : Act) (h : a ∈ (q.handleAutoPlay).2) :
    isEngineLifecycleAct a = false := by
  unfold Player.handleAutoPlay at h
  split at h
  · simp at h
  · simp only [List.mem_singleton] at h
    subst h; rfl

/-- Whether one stream-priority entry can play: its engine id is registered,
its format bucket is nonempty, and the registered engine answers
`canPlaySource` for the bucket's first source. -/
def entryPlayable (registry : List EngineStatic) (preferNative : List (String × Bool))
    (sources : List (String × List Source)) (drm : Option String) (e : PriorityEntry) : Bool :=
  match registry.find? (fun E => E.id == lowerString e.engine) with
  | some E =>
      match lookupSources sources (lowerString e.format) with
      | source :: _ =>
          E.canPlaySource source (lookupPreferNative preferNative (lowerString e.format)) drm
      | [] => false
  | none => false

/-- Unfolding of the selection loop at an entry whose engine id is not
registered: the entry is skipped without a canPlaySource query. -/
theorem selectEngineLoop_cons_noEngine (registry : List EngineStatic) (preferNative : List (String × Bool))
    (sources : List (String × List Source)) (drm : Option String) (e : PriorityEntry) (rest : List PriorityEntry)
    (hE : registry.find? (fun E => E.id == lowerString e.engine) = none) :
    selectEngineLoop registry preferNative sources drm (e :: rest)
      = selectEngineLoop registry preferNative sources drm rest := by
  conv_lhs => unfold selectEngineLoop
  dsimp only
  rw [hE]

theorem selectEngineLoop_cons_noSources (registry : List EngineStatic) (preferNative : List (String × Bool))
    (sources : List (String × List Source)) (drm : Option String) (e : PriorityEntry) (rest : List PriorityEntry)
    (E : EngineStatic)
    (hE : registry.find? (fun E2 => E2.id == lowerString e.engine) = some E)
    (hs : lookupSources sources (lowerString e.format) = []) :
    selectEngineLoop registry preferNative sources drm (e :: rest)
      = selectEngineLoop registry preferNative sources drm rest := by
  conv_lhs => unfold selectEngineLoop
  dsimp only
  rw [hE, hs]

theorem selectEngineLoop_cons_cannotPlay (registry : List EngineStatic) (preferNative : List (String × Bool))
    (sources : List (String × List Source)) (drm : Option String) (e : PriorityEntry) (rest : List PriorityEntry)
    (E : EngineStatic) (source : Source) (rest2 : List Source)
    (hE : registry.find? (fun E2 => E2.id == lowerString e.engine) = some E)
    (hs : lookupSources sources (lowerString e.format) = source :: rest2)
    (hcp : E.canPlaySource source (lookupPreferNative preferNative (lowerString e.format)) drm = false) :
    selectEngineLoop registry preferNative sources drm (e :: rest)
      = ((selectEngineLoop registry preferNative sources drm rest).1,
          (lowerString e.engine, lowerString e.format)
            :: (selectEngineLoop registry preferNative sources drm rest).2) := by
  conv_lhs => unfold selectEngineLoop
  dsimp only
  rw [hE, hs]
  dsimp only
  rw [hcp]
  simp

theorem selectEngineLoop_cons_canPlay (registry : List EngineStatic) (preferNative : List (String × Bool))
    (sources : List (String × List Source)) (drm : Option String) (e : PriorityEntry) (rest : List PriorityEntry)
    (E : EngineStatic) (source : Source) (rest2 : List Source)
    (hE : registry.find? (fun E2 => E2.id == lowerString e.engine) = some E)
    (hs : lookupSources sources (lowerString e.format) = source :: rest2)
    (hcp : E.canPlaySource source (lookupPreferNative preferNative (lowerString e.format)) drm = true) :
    selectEngineLoop registry preferNative sources drm (e :: rest)
      = (some (E, source, lowerString e.engine, lowerString e.format),
          [(lowerString e.engine, lowerString e.format)]) := by
  conv_lhs => unfold selectEngineLoop
  dsimp only
  rw [hE, hs]
  dsimp only
  rw [hcp]
  simp

theorem entryPlayable_eq_canPlay (registry : List EngineStatic) (preferNative : List (String × Bool))
    (sources : List (String × List Source)) (drm : Option String) (e : PriorityEntry)
    (E : EngineStatic) (source : Source) (rest2 : List Source)
    (hE : registry.find? (fun E2 => E2.id == lowerString e.engine) = some E)
    (hs : lookupSources sources (lowerString e.format) = source :: rest2) :
    entryPlayable registry preferNative sources drm e
      = E.canPlaySource source (lookupPreferNative preferNative (lowerString e.format)) drm := by
  unfold entryPlayable
  rw [hE, hs]

theorem selectEngineLoop_none (registry : List EngineStatic) (preferNative : List (String × Bool))
    (sources : List (String × List Source)) (drm : Option String) :
    ∀ prios : List PriorityEntry,
      (∀ e ∈ prios, entryPlayable registry preferNative sources drm e = false) →
      (selectEngineLoop registry preferNative sources drm prios).1 = none := by
  intro prios
  induction prios with
  | nil => intro _; rfl
  | cons e rest ih =>
      intro h
      have he := h e (by simp)
      have hrest := ih (fun x hx => h x (by simp [hx]))
      cases hE : registry.find? (fun E2 => E2.id == lowerString e.engine) with
      | none =>
          rw [selectEngineLoop_cons_noEngine registry preferNative sources drm e rest hE]
          exact hrest
      | some E =>
          cases hs : lookupSources sources (lowerString e.format) with
          | nil =>
              rw [selectEngineLoop_cons_noSources registry preferNative sources drm e rest E hE hs]
              exact hrest
          | cons source rest2 =>
              have hcp := (entryPlayable_eq_canPlay registry preferNative sources drm e E source
                rest2 hE hs).symm.trans he
              rw [selectEngineLoop_cons_cannotPlay registry preferNative sources drm e rest E
                source rest2 hE hs hcp]
              exact hrest

theorem selectEngineLoop_append_unplayable (registry : List EngineStatic)
    (preferNative : List (String × Bool)) (sources : List (String × List Source))
    (drm : Option String) :
    ∀ pre : List PriorityEntry,
      (∀ x ∈ pre, entryPlayable registry preferNative sources drm x = false) →
      ∀ l : List PriorityEntry,
        selectEngineLoop registry preferNative sources drm (pre ++ l)
          = ((selectEngineLoop registry preferNative sources drm l).1,
              (selectEngineLoop registry preferNative sources drm pre).2
                ++ (selectEngineLoop registry preferNative sources drm l).2) := by
  intro pre
  induction pre with
  | nil => intro _ l; rfl
  | cons e rest ih =>
      intro h l
      have he := h e (by simp)
      have hih := ih (fun x hx => h x (by simp [hx])) l
      rw [List.cons_append]
      cases hE : registry.find? (fun E2 => E2.id == lowerString e.engine) with
      | none =>
          rw [selectEngineLoop_cons_noEngine registry preferNative sources drm e (rest ++ l) hE,
            selectEngineLoop_cons_noEngine registry preferNative sources drm e rest hE]
          exact hih
      | some E =>
          cases hs : lookupSources sources (lowerString e.format) with
          | nil =>
              rw [selectEngineLoop_cons_noSources registry preferNative sources drm e (rest ++ l)
                  E hE hs,
                selectEngineLoop_cons_noSources registry preferNative sources drm e rest E hE hs]
              exact hih
          | cons source rest2 =>
              have hcp := (entryPlayable_eq_canPlay registry preferNative sources drm e E source
                rest2 hE hs).symm.trans he
              rw [selectEngineLoop_cons_cannotPlay registry preferNative sources drm e (rest ++ l)
                  E source rest2 hE hs hcp,
                selectEngineLoop_cons_cannotPlay registry preferNative sources drm e rest E source
                  rest2 hE hs hcp]
              rw [hih]
              simp

theorem selectEngineLoop_first_playable (registry : List EngineStatic)
    (preferNative : List (String × Bool)) (sources : List (String × List Source))
    (drm : Option String) (pre : List PriorityEntry) (e : PriorityEntry)
    (post : List PriorityEntry)
    (hpre : ∀ x ∈ pre, entryPlayable registry preferNative sources drm x = false)
    (he : entryPlayable registry preferNative sources drm e = true) :
    ∃ E source rest2,
      registry.find? (fun E2 => E2.id == lowerString e.engine) = some E
      ∧ lookupSources sources (lowerString e.format) = source :: rest2
      ∧ selectEngineLoop registry preferNative sources drm (pre ++ e :: post)
          = (some (E, source, lowerString e.engine, lowerString e.format),
              (selectEngineLoop registry preferNative sources drm pre).2
                ++ [(lowerString e.engine, lowerString e.format)]) := by
  cases hE : registry.find? (fun E2 => E2.id == lowerString e.engine) with
  | none =>
      unfold entryPlayable at he
      rw [hE] at he
      simp at he
  | some E =>
      cases hs : lookupSources sources (lowerString e.format) with
      | nil =>
          unfold entryPlayable at he
          rw [hE, hs] at he
          simp at he
      | cons source rest2 =>
          have hcp := (entryPlayable_eq_canPlay registry preferNative sources drm e E source
            rest2 hE hs).symm.trans he
          refine ⟨E, source, rest2, rfl, rfl, ?_⟩
          rw [selectEngineLoop_append_unplayable registry preferNative sources drm pre hpre
            (e :: post)]
          rw [selectEngineLoop_cons_canPlay registry preferNative sources drm e post E source
            rest2 hE hs hcp]

/-- `reset()` on a player with no engine leaves no engine bound. -/
theorem reset_engine_none (q : Player) (h : q.engine = none) :
    ((q.reset).1).engine = none := by
  unfold Player.reset Player.pause
  by_cases hr : q.isReset
  · simp [hr, h]
  · rw [h]
    simp [hr, Player.resetStateFlags, h]

/-- `reset()` keeps the bound engine instance (only its attributes change),
in particular its engine id. -/
theorem reset_engine_some (q : Player) (eng : Engine) (h : q.engine = some eng) :
    ∃ eng2, ((q.reset).1).engine = some eng2 ∧ eng2.id = eng.id := by
  unfold Player.reset Player.pause
  by_cases hr : q.isReset
  · refine ⟨eng, ?_, rfl⟩
    simp [hr, h]
  · rw [h]
    refine ⟨{ eng with paused := true }, ?_, rfl⟩
    simp [hr, Player.resetStateFlags]

/-- The configuration `configure()` selects against on its change-media path:
the configuration after the plugins step and the reset (which clears the
source buckets), overlaid with the incoming configuration. -/
def Player.mergedConfigOnChangeMedia (p : Player) (cfg : PartialConfig) : PlayerConfig :=
  mergeConfig (((p.configureOrLoadPlugins cfg.plugins).reset).1.config) cfg

/-- The post-selection steps keep the engine type. -/
theorem postSelect_engineType (q : Player) :
    (q.postSelect).1.engineType = q.engineType := by
  unfold Player.postSelect
  dsimp only
  rw [handleAutoPlay_fst, handlePreload_engineType, handlePlaybackOptions_engineType]

/-- The post-selection steps keep the stream type. -/
theorem postSelect_streamType (q : Player) :
    (q.postSelect).1.streamType = q.streamType := by
  unfold Player.postSelect
  dsimp only
  rw [handleAutoPlay_fst, handlePreload_streamType, handlePlaybackOptions_streamType]

/-- The post-selection trace contains no engine lifecycle action. -/
theorem postSelect_no_lifecycle (q : Player) (a : Act) (h : a ∈ (q.postSelect).2) :
    isEngineLifecycleAct a = false := by
  unfold Player.postSelect at h
  dsimp only at h
  rw [List.mem_append, List.mem_append] at h
  rcases h with (h | h) | h
  · exact handlePlaybackOptions_no_lifecycle _ a h
  · exact handlePreload_no_lifecycle _ a h
  · exact handleAutoPlay_no_lifecycle _ a h

/-- The player state `configure()`'s change-media path runs engine selection
on: the state after the plugins step and the reset, with the merged
configuration and the reset flag cleared. -/
def Player.preSelectState (p : Player) (cfg : PartialConfig) : Player :=
  { ((p.configureOrLoadPlugins cfg.plugins).reset).1 with
      config := p.mergedConfigOnChangeMedia cfg, isReset := false }

/-- Decomposition of `configure()` on the change-media path when engine
selection fails: the state keeps no new engine and the trace is the reset
trace, CHANGE_SOURCE_STARTED, and exactly one critical
NO_ENGINE_FOUND_TO_PLAY_THE_SOURCE error event. -/
theorem configure_failure (registry : List EngineStatic) (p : Player) (cfg : PartialConfig)
    (hSrc : cfg.carriesSources = true)
    (hNone : (selectEngineLoop registry (p.mergedConfigOnChangeMedia cfg).playback.preferNative
        (p.mergedConfigOnChangeMedia cfg).sources (p.mergedConfigOnChangeMedia cfg).drm
        (p.mergedConfigOnChangeMedia cfg).playback.streamPriority).1 = none) :
    p.configure registry cfg
      = (p.preSelectState cfg,
          ((p.configureOrLoadPlugins cfg.plugins).reset).2
            ++ [Act.changeSourceStarted,
                Act.errorEvent Severity.critical ErrorCode.noEngineFoundToPlayTheSource]) := by
  unfold Player.preSelectState
  unfold Player.mergedConfigOnChangeMedia at hNone ⊢
  unfold Player.configure Player.selectEngineByPriority
  rw [if_pos hSrc]
  dsimp only
  rw [hNone]
  simp

/-- Decomposition of `configure()` on the change-media path when engine
selection succeeds: the trace is the reset trace, CHANGE_SOURCE_STARTED, the
`_loadEngine` trace, SOURCE_SELECTED, the post-selection trace and
CHANGE_SOURCE_ENDED, and the resulting state is the post-selection state over
the loaded engine with the winning engine and stream types recorded. -/
theorem configure_success (registry : List EngineStatic) (p : Player) (cfg : PartialConfig)
    (E : EngineStatic) (source : Source) (eid fmt : String)
    (hSrc : cfg.carriesSources = true)
    (hSel : (selectEngineLoop registry (p.mergedConfigOnChangeMedia cfg).playback.preferNative
        (p.mergedConfigOnChangeMedia cfg).sources (p.mergedConfigOnChangeMedia cfg).drm
        (p.mergedConfigOnChangeMedia cfg).playback.streamPriority).1 = some (E, source, eid, fmt)) :
    p.configure registry cfg
      = ((({ ((p.preSelectState cfg).loadEngine E source).1 with
              engineType := eid, streamType := fmt } : Player).postSelect).1,
          ((p.configureOrLoadPlugins cfg.plugins).reset).2
            ++ [Act.changeSourceStarted]
            ++ ((p.preSelectState cfg).loadEngine E source).2
            ++ [Act.sourceSelected]
            ++ (({ ((p.preSelectState cfg).loadEngine E source).1 with
                    engineType := eid, streamType := fmt } : Player).postSelect).2
            ++ [Act.changeSourceEnded]) := by
  unfold Player.preSelectState
  unfold Player.mergedConfigOnChangeMedia at hSel ⊢
  unfold Player.configure Player.selectEngineByPriority
  rw [if_pos hSrc]
  dsimp only
  rw [hSel]
  simp

/-- C1: on a `configure()` with sources, over a player with no engine bound:
when no stream-priority entry is playable, the call dispatches exactly one
critical NO_ENGINE_FOUND_TO_PLAY_THE_SOURCE error event and leaves no engine
bound; and when the priority list splits as pre ++ e :: post with every entry
of pre unplayable and e playable, the recorded engine and stream types are
exactly e's (lowercased) entries — the first playable entry in list order —
and the canPlaySource queries stop at e: they are the queries of pre followed
by e's query, with no entry of post asked. -/
theorem c1_engine_selection (registry : List EngineStatic) (p : Player) (cfg : PartialConfig)
    (hEng : p.engine = none) (hSrc : cfg.carriesSources = true) :
    ((∀ e ∈ (p.mergedConfigOnChangeMedia cfg).playback.streamPriority,
        entryPlayable registry (p.mergedConfigOnChangeMedia cfg).playback.preferNative
          (p.mergedConfigOnChangeMedia cfg).sources (p.mergedConfigOnChangeMedia cfg).drm e
          = false) →
      ((p.configure registry cfg).2.count
          (Act.errorEvent Severity.critical ErrorCode.noEngineFoundToPlayTheSource) = 1
        ∧ (p.configure registry cfg).1.engine = none))
    ∧ (∀ (pre : List PriorityEntry) (e : PriorityEntry) (post : List PriorityEntry),
        (p.mergedConfigOnChangeMedia cfg).playback.streamPriority = pre ++ e :: post →
        (∀ x ∈ pre, entryPlayable registry (p.mergedConfigOnChangeMedia cfg).playback.preferNative
            (p.mergedConfigOnChangeMedia cfg).sources (p.mergedConfigOnChangeMedia cfg).drm x
            = false) →
        entryPlayable registry (p.mergedConfigOnChangeMedia cfg).playback.preferNative
            (p.mergedConfigOnChangeMedia cfg).sources (p.mergedConfigOnChangeMedia cfg).drm e
            = true →
        ((p.configure registry cfg).1.engineType = lowerString e.engine
          ∧ (p.configure registry cfg).1.streamType = lowerString e.format
          ∧ (selectEngineLoop registry (p.mergedConfigOnChangeMedia cfg).playback.preferNative
              (p.mergedConfigOnChangeMedia cfg).sources (p.mergedConfigOnChangeMedia cfg).drm
              (p.mergedConfigOnChangeMedia cfg).playback.streamPriority).2
            = (selectEngineLoop registry (p.mergedConfigOnChangeMedia cfg).playback.preferNative
                (p.mergedConfigOnChangeMedia cfg).sources (p.mergedConfigOnChangeMedia cfg).drm
                pre).2
              ++ [(lowerString e.engine, lowerString e.format)])) := by
  constructor
  · intro hAll
    have hNone := selectEngineLoop_none registry
      (p.mergedConfigOnChangeMedia cfg).playback.preferNative
      (p.mergedConfigOnChangeMedia cfg).sources (p.mergedConfigOnChangeMedia cfg).drm
      (p.mergedConfigOnChangeMedia cfg).playback.streamPriority hAll
    rw [configure_failure registry p cfg hSrc hNone]
    constructor
    · rw [List.count_append]
      rw [List.count_eq_zero.mpr (reset_no_error _ _ _)]
      rfl
    · show (p.preSelectState cfg).engine = none
      unfold Player.preSelectState
      show (((p.configureOrLoadPlugins cfg.plugins).reset).1).engine = none
      apply reset_engine_none
      rw [configureOrLoadPlugins_engine]
      exact hEng
  · intro pre e post hsplit hpre hplayable
    obtain ⟨E, source, rest2, hE, hs, hLoopEq⟩ :=
      selectEngineLoop_first_playable registry
        (p.mergedConfigOnChangeMedia cfg).playback.preferNative
        (p.mergedConfigOnChangeMedia cfg).sources (p.mergedConfigOnChangeMedia cfg).drm
        pre e post hpre hplayable
    have hSel : (selectEngineLoop registry
        (p.mergedConfigOnChangeMedia cfg).playback.preferNative
        (p.mergedConfigOnChangeMedia cfg).sources (p.mergedConfigOnChangeMedia cfg).drm
        (p.mergedConfigOnChangeMedia cfg).playback.streamPriority).1
          = some (E, source, lowerString e.engine, lowerString e.format) := by
      rw [hsplit, hLoopEq]
    refine ⟨?_, ?_, ?_⟩
    · rw [configure_success registry p cfg E source (lowerString e.engine) (lowerString e.format)
        hSrc hSel]
      rw [postSelect_engineType]
    · rw [configure_success registry p cfg E source (lowerString e.engine) (lowerString e.format)
        hSrc hSel]
      rw [postSelect_streamType]
    · rw [hsplit, hLoopEq]

/-- Registry of the selection scenario whose single engine can play nothing. -/
def c1NoRegistry : List EngineStatic :=
  [{ id := "html5", canPlaySource := fun _ _ _ => false }]

/-- Registry of the selection scenario whose single engine can play
everything. -/
def c1YesRegistry : List EngineStatic :=
  [{ id := "html5", canPlaySource := fun _ _ _ => true }]

/-- The configuration of the selection scenario: one hls source and a single
stream-priority entry for the html5 engine on hls. -/
def c1Cfg : PartialConfig where
  sources := some [("hls", [{ url := "a.m3u8" }])]
  playback := { streamPriority := some [{ engine := "html5", format := "hls" }] }

/-- Witness for C1 at the concrete scenario: with the unplayable registry the
call reports exactly one NO_ENGINE_FOUND_TO_PLAY_THE_SOURCE error and binds
no engine; with the playable registry the html5 engine wins. -/
theorem c1_engine_selection_witness :
    (Player.base.engine = none)
    ∧ ((Player.base.configure c1NoRegistry c1Cfg).2.count
        (Act.errorEvent Severity.critical ErrorCode.noEngineFoundToPlayTheSource) = 1)
    ∧ ((Player.base.configure c1NoRegistry c1Cfg).1.engine = none)
    ∧ ((Player.base.configure c1YesRegistry c1Cfg).1.engineType = lowerString "html5") :=
  ⟨rfl,
    ((c1_engine_selection c1NoRegistry Player.base c1Cfg rfl (by decide)).1 (by decide)).1,
    ((c1_engine_selection c1NoRegistry Player.base c1Cfg rfl (by decide)).1 (by decide)).2,
    ((c1_engine_selection c1YesRegistry Player.base c1Cfg rfl (by decide)).2 []
      { engine := "html5", format := "hls" } [] (by decide) (by decide) (by decide)).1⟩

/-- `_loadEngine` over a bound engine of a different type destroys the old
engine and creates the new one. -/
theorem loadEngine_different (q : Player) (eng : Engine) (E : EngineStatic) (source : Source)
    (hq : q.engine = some eng) (hne : (eng.id == E.id) = false) :
    q.loadEngine E source
      = ({ q with engine := some { id := E.id, sourceUrl := source.url } },
          [Act.engineDestroy eng.id, Act.engineCreate E.id]) := by
  unfold Player.loadEngine
  rw [hq]
  dsimp only
  rw [hne]
  simp

/-- `_loadEngine` over a bound engine of the same type restores it in place. -/
theorem loadEngine_same (q : Player) (eng : Engine) (E : EngineStatic) (source : Source)
    (hq : q.engine = some eng) (heq : (eng.id == E.id) = true) :
    q.loadEngine E source
      = ({ q with engine := some { id := eng.id, sourceUrl := source.url } },
          [Act.engineRestore eng.id]) := by
  unfold Player.loadEngine
  rw [hq]
  dsimp only
  rw [heq]
  simp

/-- A list whose members are all outside a Boolean class does not contain a
member of the class. -/
theorem not_mem_of_lifecycle_free (L : List Act)
    (hL : ∀ a ∈ L, isEngineLifecycleAct a = false) (x : Act)
    (hx : isEngineLifecycleAct x = true) : x ∉ L := by
  intro hmem
  rw [hL x hmem] at hx
  exact Bool.false_ne_true hx

/-- A reset trace counts no engine lifecycle action. -/
theorem reset_count_lifecycle (q : Player) (x : Act)
    (hx : isEngineLifecycleAct x = true) : (((q.reset)).2).count x = 0 := by
  rw [List.count_eq_zero]
  exact not_mem_of_lifecycle_free _ (fun a h => reset_no_lifecycle q a h) x hx

/-- A post-selection trace counts no engine lifecycle action. -/
theorem postSelect_count_lifecycle (q : Player) (x : Act)
    (hx : isEngineLifecycleAct x = true) : ((q.postSelect).2).count x = 0 := by
  rw [List.count_eq_zero]
  exact not_mem_of_lifecycle_free _ (fun a h => postSelect_no_lifecycle q a h) x hx

/-- A two-action block placed between the fixed events of the change-media
trace is an infix of that trace. -/
theorem infix_pair_in_trace (R T : List Act) (a b s1 s2 s3 : Act) :
    List.IsInfix [a, b] (R ++ [s1] ++ [a, b] ++ [s2] ++ T ++ [s3]) := by
  refine ⟨R ++ [s1], [s2] ++ T ++ [s3], ?_⟩
  simp

/-- C8: on a reconfigure with playable sources over a player with an engine
bound, when the winning engine type differs from the bound engine's id the
old engine is destroyed exactly once and the destruction precedes the single
creation of the new engine, with no restore; and when the winning engine type
equals the bound engine's id the engine is restored in place, with no destroy
and no create. -/
theorem c8_engine_swap_or_restore (registry : List EngineStatic) (p : Player)
    (cfg : PartialConfig) (e : Engine) (E : EngineStatic) (source : Source) (eid fmt : String)
    (hEng : p.engine = some e)
    (hSrc : cfg.carriesSources = true)
    (hSel : (selectEngineLoop registry (p.mergedConfigOnChangeMedia cfg).playback.preferNative
        (p.mergedConfigOnChangeMedia cfg).sources (p.mergedConfigOnChangeMedia cfg).drm
        (p.mergedConfigOnChangeMedia cfg).playback.streamPriority).1 = some (E, source, eid, fmt)) :
    (E.id ≠ e.id →
        ((p.configure registry cfg).2.count (Act.engineDestroy e.id) = 1
          ∧ (p.configure registry cfg).2.count (Act.engineCreate E.id) = 1
          ∧ List.IsInfix [Act.engineDestroy e.id, Act.engineCreate E.id]
              (p.configure registry cfg).2
          ∧ (∀ s, Act.engineRestore s ∉ (p.configure registry cfg).2)))
    ∧ (E.id = e.id →
        (Act.engineRestore e.id ∈ (p.configure registry cfg).2
          ∧ (∀ s, Act.engineDestroy s ∉ (p.configure registry cfg).2)
          ∧ (∀ s, Act.engineCreate s ∉ (p.configure registry cfg).2))) := by
  have hq0 : (p.configureOrLoadPlugins cfg.plugins).engine = some e := by
    rw [configureOrLoadPlugins_engine]
    exact hEng
  obtain ⟨eng2, hE2, hid⟩ := reset_engine_some _ e hq0
  have hpre : (p.preSelectState cfg).engine = some eng2 := hE2
  rw [configure_success registry p cfg E source eid fmt hSrc hSel]
  constructor
  · intro hne
    have hbe : (eng2.id == E.id) = false := by
      rw [hid]
      simp only [beq_eq_false_iff_ne, ne_eq]
      exact fun h => hne h.symm
    rw [loadEngine_different (p.preSelectState cfg) eng2 E source hpre hbe, hid]
    dsimp only
    refine ⟨?_, ?_, ?_, ?_⟩
    · simp [List.count_append, List.count_cons, reset_count_lifecycle,
        postSelect_count_lifecycle, isEngineLifecycleAct, beq_iff_eq]
    · simp [List.count_append, List.count_cons, reset_count_lifecycle,
        postSelect_count_lifecycle, isEngineLifecycleAct, beq_iff_eq]
    · exact infix_pair_in_trace _ _ _ _ _ _ _
    · intro s hmem
      simp only [List.mem_append, List.mem_cons, List.not_mem_nil, or_false] at hmem
      rcases hmem with ((((hm | hm) | hm) | hm) | hm) | hm
      · exact not_mem_of_lifecycle_free _ (fun a h => reset_no_lifecycle _ a h)
          (Act.engineRestore s) rfl hm
      · exact absurd hm (by simp)
      · rcases hm with hm | hm
        · exact absurd hm (by simp)
        · exact absurd hm (by simp)
      · exact absurd hm (by simp)
      · exact not_mem_of_lifecycle_free _ (fun a h => postSelect_no_lifecycle _ a h)
          (Act.engineRestore s) rfl hm
      · exact absurd hm (by simp)
  · intro heqid
    have hbe : (eng2.id == E.id) = true := by
      rw [hid, heqid]
      simp
    rw [loadEngine_same (p.preSelectState cfg) eng2 E source hpre hbe, hid]
    dsimp only
    refine ⟨?_, ?_, ?_⟩
    · simp
    · intro s hmem
      simp only [List.mem_append, List.mem_cons, List.not_mem_nil, or_false] at hmem
      rcases hmem with ((((hm | hm) | hm) | hm) | hm) | hm
      · exact not_mem_of_lifecycle_free _ (fun a h => reset_no_lifecycle _ a h)
          (Act.engineDestroy s) rfl hm
      · exact absurd hm (by simp)
      · exact absurd hm (by simp)
      · exact absurd hm (by simp)
      · exact not_mem_of_lifecycle_free _ (fun a h => postSelect_no_lifecycle _ a h)
          (Act.engineDestroy s) rfl hm
      · exact absurd hm (by simp)
    · intro s hmem
      simp only [List.mem_append, List.mem_cons, List.not_mem_nil, or_false] at hmem
      rcases hmem with ((((hm | hm) | hm) | hm) | hm) | hm
      · exact not_mem_of_lifecycle_free _ (fun a h => reset_no_lifecycle _ a h)
          (Act.engineCreate s) rfl hm
      · exact absurd hm (by simp)
      · exact absurd hm (by simp)
      · exact absurd hm (by simp)
      · exact not_mem_of_lifecycle_free _ (fun a h => postSelect_no_lifecycle _ a h)
          (Act.engineCreate s) rfl hm
      · exact absurd hm (by simp)

/-- The html5 engine of the reconfigure scenario: plays only the mp4 source. -/
def c8Html5 : EngineStatic :=
  { id := "html5", canPlaySource := fun source _ _ => source.url == "a.mp4" }

/-- The second engine of the reconfigure scenario: plays everything. -/
def c8Flash : EngineStatic := { id := "flash", canPlaySource := fun _ _ _ => true }

/-- The registry of the reconfigure scenario. -/
def c8Registry : List EngineStatic := [c8Html5, c8Flash]

/-- First configuration: a progressive source played by html5. -/
def c8Cfg1 : PartialConfig where
  sources := some [("progressive", [{ url := "a.mp4" }])]
  playback :=
    { streamPriority := some [{ engine := "html5", format := "progressive" },
        { engine := "flash", format := "hls" }] }

/-- Second configuration: an hls source, played only by the other engine. -/
def c8Cfg2 : PartialConfig where
  sources := some [("hls", [{ url := "b.m3u8" }])]

/-- The player after the first configure of the reconfigure scenario. -/
def c8P1 : Player := (Player.init c8Registry c8Cfg1).1

/-- Witness for C8 at the concrete scenario: reconfiguring to the hls source
destroys the html5 engine exactly once, and reconfiguring to the same engine
type restores it instead. -/
theorem c8_engine_swap_or_restore_witness :
    (c8P1.engine = some { id := "html5", sourceUrl := "a.mp4" })
    ∧ ((c8P1.configure c8Registry c8Cfg2).2.count (Act.engineDestroy "html5") = 1)
    ∧ (Act.engineRestore "html5" ∈ (c8P1.configure c8Registry c8Cfg1).2) :=
  ⟨rfl,
    ((c8_engine_swap_or_restore c8Registry c8P1 c8Cfg2 { id := "html5", sourceUrl := "a.mp4" }
        c8Flash { url := "b.m3u8" } "flash" "hls" rfl rfl rfl).1 (by decide)).1,
    ((c8_engine_swap_or_restore c8Registry c8P1 c8Cfg1 { id := "html5", sourceUrl := "a.mp4" }
        c8Html5 { url := "a.mp4" } "html5" "progressive" rfl rfl rfl).2 rfl).1⟩
